import Mathlib

/-!
# Azure Sphere DPS provisioning (`azure_sphere_provisioningv2.c`)

A shallow embedding of `register_device_callback` and of
`IoTHubDeviceClient_LL_CreateWithAzureSphereDeviceAuthProvisioningV2`.

* C strings are modelled by the characters before their terminator; a `char*`
  that may be `NULL` is an `Option`.
* The SDK collaborators (readiness probes, attest subsystem, DPS client, hub
  client) are outside the repository.  Their outcomes are the fields of `Env`;
  every call the function makes on them is recorded, in order, in a trace of
  `Event`s.  `Log_Debug` calls are not recorded.
* `unsigned int` is a natural number below `2 ^ 32`; the decrement of the
  polling budget wraps modulo `2 ^ 32`.
* The DPS client invokes the registered callback only from inside
  `Prov_Device_LL_DoWork`, synchronously and at most once per call.
* The provisioning call is modelled on strings, its runs being those in which
  the `malloc` of the callback succeeds; `Mem.register_device_callback` models
  the callback on buffer addresses, the unchecked `malloc` included.
-/

namespace AzureSphereProv

/-! ## Constants of the source file -/

def CHINA_DPS_ENDPOINT : String := "global.azure-devices-provisioning.cn"
def GLOBAL_DPS_ENDPOINT : String := "global.azure-devices-provisioning.net"
def CHINA_DPS_IDSCOPE_PREFIX : String := "0cn"
def GLOBAL_DPS_IDSCOPE_PREFIX : String := "0ne"
def CHINA_IOTHUB_SUFFIX : String := ".cn"
def GLOBAL_IOTHUB_SUFFIX : String := ".net"

def PROV_CHECK_LOOP : Nat := 100

/-- Number of values of a 32-bit `unsigned int`. -/
def UINT_RANGE : Nat := 4294967296

def digiCertGlobalRootCA : String :=
  "-----BEGIN CERTIFICATE-----\r\n" ++
  "MIIDrzCCApegAwIBAgIQCDvgVpBCRrGhdWrJWZHHSjANBgkqhkiG9w0BAQUFADBh\r\n" ++
  "MQswCQYDVQQGEwJVUzEVMBMGA1UEChMMRGlnaUNlcnQgSW5jMRkwFwYDVQQLExB3\r\n" ++
  "d3cuZGlnaWNlcnQuY29tMSAwHgYDVQQDExdEaWdpQ2VydCBHbG9iYWwgUm9vdCBD\r\n" ++
  "QTAeFw0wNjExMTAwMDAwMDBaFw0zMTExMTAwMDAwMDBaMGExCzAJBgNVBAYTAlVT\r\n" ++
  "MRUwEwYDVQQKEwxEaWdpQ2VydCBJbmMxGTAXBgNVBAsTEHd3dy5kaWdpY2VydC5j\r\n" ++
  "b20xIDAeBgNVBAMTF0RpZ2lDZXJ0IEdsb2JhbCBSb290IENBMIIBIjANBgkqhkiG\r\n" ++
  "9w0BAQEFAAOCAQ8AMIIBCgKCAQEA4jvhEXLeqKTTo1eqUKKPC3eQyaKl7hLOllsB\r\n" ++
  "CSDMAZOnTjC3U/dDxGkAV53ijSLdhwZAAIEJzs4bg7/fzTtxRuLWZscFs3YnFo97\r\n" ++
  "nh6Vfe63SKMI2tavegw5BmV/Sl0fvBf4q77uKNd0f3p4mVmFaG5cIzJLv07A6Fpt\r\n" ++
  "43C/dxC//AH2hdmoRBBYMql1GNXRor5H4idq9Joz+EkIYIvUX7Q6hL+hqkpMfT7P\r\n" ++
  "T19sdl6gSzeRntwi5m3OFBqOasv+zbMUZBfHWymeMr/y7vrTC0LUq7dBMtoM1O/4\r\n" ++
  "gdW7jVg/tRvoSSiicNoxBN33shbyTApOB6jtSj1etX+jkMOvJwIDAQABo2MwYTAO\r\n" ++
  "BgNVHQ8BAf8EBAMCAYYwDwYDVR0TAQH/BAUwAwEB/zAdBgNVHQ4EFgQUA95QNVbR\r\n" ++
  "TLtm8KPiGxvDl7I90VUwHwYDVR0jBBgwFoAUA95QNVbRTLtm8KPiGxvDl7I90VUw\r\n" ++
  "DQYJKoZIhvcNAQEFBQADggEBAMucN6pIExIK+t1EnE9SsPTfrgT1eXkIoyQY/Esr\r\n" ++
  "hMAtudXH/vTBH1jLuG2cenTnmCmrEbXjcKChzUyImZOMkXDiqw8cvpOp/2PV5Adg\r\n" ++
  "06O/nVsJ8dWO41P0jmP6P6fbtGbfYmbW0W5BjfIttep3Sp+dWOIrWcBAI+0tKIJF\r\n" ++
  "PnlUkiaY4IBIqDfv8NZ5YBberOgOzW6sRBc4L0na4UU+Krk2U886UAb3LujEV0ls\r\n" ++
  "YSEY1QSteDwsOoBrp+uvFRTp2InBuThs4pFsiv9kuXclVzDAGySj4dzp30d8tbQk\r\n" ++
  "CAUw7C29C79Fv1C5qfPrmAESrciIxpg0X40KPMbp1ZWVbd4=\r\n" ++
  "-----END CERTIFICATE-----\r\n"

/-! ## SDK types used by the source file -/

/-- Modelled from the spec: the SDK enumeration `PROV_DEVICE_RESULT` (the
"DPS-layer code") is declared outside the repository.  The constructors are the
enumerators the source file names; `other` stands for every further one. -/
inductive PROV_DEVICE_RESULT where
  | OK
  | ERROR
  | TIMEOUT
  | DEV_AUTH_ERROR
  | other (code : Nat)
  deriving DecidableEq, Repr

/-- Modelled from the spec: the SDK enumeration `IOTHUB_CLIENT_RESULT` (the
"hub-client code") is declared outside the repository.  `OK` is the only
enumerator the source file names; `other` stands for every further one. -/
inductive IOTHUB_CLIENT_RESULT where
  | OK
  | other (code : Nat)
  deriving DecidableEq, Repr

/-- Modelled from the spec: the primary status of the return value, with the
seven enumerators the source file assigns to `ret.result`. -/
inductive AZURE_SPHERE_PROV_RESULT where
  | OK
  | INVALID_PARAM
  | NETWORK_NOT_READY
  | DEVICEAUTH_NOT_READY
  | PROV_DEVICE_ERROR
  | IOTHUB_CLIENT_ERROR
  | GENERIC_ERROR
  deriving DecidableEq, Repr

/-- Modelled from the spec: the return record `AZURE_SPHERE_PROV_RETURN_VALUE`.
The source names two secondary fields, `prov_device_error` and
`iothub_client_error`; they are kept apart here.  The local `ret` of the source
is not initialised, so a secondary field that was never assigned on the path
taken is `none`. -/
structure AZURE_SPHERE_PROV_RETURN_VALUE where
  result : AZURE_SPHERE_PROV_RESULT
  prov_device_error : Option PROV_DEVICE_RESULT
  iothub_client_error : Option IOTHUB_CLIENT_RESULT
  deriving DecidableEq, Repr

/-- A non-null `PROV_DEVICE_LL_HANDLE`. -/
abbrev ProvHandle := Nat

/-- A non-null `IOTHUB_DEVICE_CLIENT_LL_HANDLE`. -/
abbrev HubHandle := Nat

/-- The value passed to a `SetOption` call: `&device_id` or the PEM text. -/
inductive OptionValue where
  | deviceId (v : Int)
  | cert (pem : String)
  deriving DecidableEq, Repr

/-! ## The registration context -/

structure DpsCbContext where
  registration_complete : Bool
  is_china_iothub : Bool
  iothub_uri : Option String
  error_code : PROV_DEVICE_RESULT
  deriving DecidableEq, Repr

/-- The registration context as lines 164-168 initialise it. -/
def freshContext : DpsCbContext :=
  { registration_complete := false, is_china_iothub := false, iothub_uri := none,
    error_code := .OK }

/-! ## libc string functions used by the source -/

/-- The C `strlen`. -/
def strlen (s : String) : Nat := s.data.length

/-- The C `strncmp` on the characters before the terminators: compares at most
`n` characters, the terminator of a shorter string counting as character 0. -/
def strncmp : List Char → List Char → Nat → Int
  | _, _, 0 => 0
  | [], [], _ + 1 => 0
  | [], b :: _, _ + 1 => 0 - (b.toNat : Int)
  | a :: _, [], _ + 1 => (a.toNat : Int)
  | a :: as, b :: bs, n + 1 =>
      if a = b then strncmp as bs n else (a.toNat : Int) - (b.toNat : Int)

/-- The C `strstr`: the tail of the haystack starting at the first occurrence
of the needle, `none` for `NULL`. -/
def strstr : List Char → List Char → Option (List Char)
  | [], needle => if needle.isEmpty then some [] else none
  | c :: cs, needle =>
      if needle.isPrefixOf (c :: cs) then some (c :: cs) else strstr cs needle

/-! ## `register_device_callback` -/

/-- The callback of lines 87-106.  `iothub_uri` is the string the DPS client
passes (only read when the result is `OK`); `malloc` is taken to succeed, and
the copy made by `strcpy` is the stored value. -/
def register_device_callback (register_result : PROV_DEVICE_RESULT) (iothub_uri : String)
    (pctx : DpsCbContext) : DpsCbContext :=
  if register_result = PROV_DEVICE_RESULT.OK then
    let pctx1 := { pctx with iothub_uri := some iothub_uri }
    let pctx2 :=
      if strstr iothub_uri.data CHINA_IOTHUB_SUFFIX.data ≠ none then
        { pctx1 with is_china_iothub := true }
      else pctx1
    { pctx2 with error_code := register_result, registration_complete := true }
  else
    { pctx with error_code := register_result, registration_complete := true }

/-! ## Collaborators and the trace of calls -/

/-- The outcomes of the SDK collaborators during one call.

* A readiness probe yields its return code and the value its `bool` out-parameter
  holds afterwards (the source sets it to `false` before the call).
* `Prov_Device_LL_DoWork h k` is what the `k`-th do-work tick (counted from 0)
  does with the registered callback: `none` when it does not invoke it,
  `some (r, uri)` when it invokes it once with result `r` and hub URI `uri`.
  No other collaborator invokes the callback.
* `OPTION_TRUSTED_CERT` is the SDK's option key, defined outside the repository. -/
structure Env where
  Networking_IsNetworkingReady : Int × Bool
  Application_IsDeviceAuthReady : Int × Bool
  prov_dev_security_init : Int
  Prov_Device_LL_Create : String → String → Option ProvHandle
  Prov_Device_LL_SetOption : ProvHandle → String → OptionValue → PROV_DEVICE_RESULT
  Prov_Device_LL_Register_Device : ProvHandle → PROV_DEVICE_RESULT
  Prov_Device_LL_DoWork : ProvHandle → Nat → Option (PROV_DEVICE_RESULT × String)
  IoTHubDeviceClient_LL_CreateWithAzureSphereFromDeviceAuth : Option String → Option HubHandle
  IoTHubDeviceClient_LL_SetOption : HubHandle → String → OptionValue → IOTHUB_CLIENT_RESULT
  OPTION_TRUSTED_CERT : String

/-- One call on a collaborator, with its arguments and, where the source reads
it, its result.  `IoTHubDeviceClient_LL_Destroy` belongs to the SDK interface;
the source file never calls it. -/
inductive Event where
  | Networking_IsNetworkingReady
  | Application_IsDeviceAuthReady
  | prov_dev_security_init
  | prov_dev_security_deinit
  | Prov_Device_LL_Create (uri scope : String) (result : Option ProvHandle)
  | Prov_Device_LL_SetOption (h : ProvHandle) (name : String) (value : OptionValue)
      (result : PROV_DEVICE_RESULT)
  | Prov_Device_LL_Register_Device (h : ProvHandle) (result : PROV_DEVICE_RESULT)
  | Prov_Device_LL_DoWork (h : ProvHandle) (callback : Option (PROV_DEVICE_RESULT × String))
  | msleep (ms : Nat)
  | Prov_Device_LL_Destroy (h : ProvHandle)
  | IoTHubDeviceClient_LL_CreateWithAzureSphereFromDeviceAuth (uri : Option String)
      (result : Option HubHandle)
  | free (p : Option String)
  | IoTHubDeviceClient_LL_SetOption (h : HubHandle) (name : String) (value : OptionValue)
      (result : IOTHUB_CLIENT_RESULT)
  | IoTHubDeviceClient_LL_Destroy (h : HubHandle)
  deriving DecidableEq, Repr

/-- What a call leaves behind: the returned record, the cell `*handle` (`none`
when the pointer `handle` is `NULL`; inside, `none` is a `NULL` hub handle), and
the calls made on the collaborators, in order. -/
structure Run where
  ret : AZURE_SPHERE_PROV_RETURN_VALUE
  handle : Option (Option HubHandle)
  trace : List Event
  deriving DecidableEq, Repr

/-! ## The provisioning call -/

/-- The effect of one `Prov_Device_LL_DoWork` on the registration context: the
DPS client invokes `register_device_callback` synchronously, or not at all. -/
def doWorkCallback (callback : Option (PROV_DEVICE_RESULT × String)) (ctx : DpsCbContext) :
    DpsCbContext :=
  match callback with
  | none => ctx
  | some (register_result, iothub_uri) => register_device_callback register_result iothub_uri ctx

/-- The iterations of the `do ... while` loop of lines 209-213 after the first
one: `while ((!ctx.registration_complete) && (num_of_loops > 0))` followed by
the loop body.  Here the budget is positive when it is decremented, so
`--num_of_loops` is the predecessor.  `tick` counts the do-work calls made so
far.  Yields the final context and the calls made. -/
def pollWhile (env : Env) (prov_handle : ProvHandle) :
    Nat → Nat → DpsCbContext → DpsCbContext × List Event
  | 0, _, ctx => (ctx, [])
  | num_of_loops + 1, tick, ctx =>
      if !ctx.registration_complete then
        let callback := env.Prov_Device_LL_DoWork prov_handle tick
        let rest := pollWhile env prov_handle num_of_loops (tick + 1) (doWorkCallback callback ctx)
        (rest.1, Event.Prov_Device_LL_DoWork prov_handle callback
                  :: Event.msleep PROV_CHECK_LOOP :: rest.2)
      else (ctx, [])

/-- The `do ... while` loop of lines 209-213: the body runs once (do-work,
sleep, `--num_of_loops` on an `unsigned int`, which wraps from 0 to
`2 ^ 32 - 1`), then the loop condition takes over.  Yields the final context
and the calls made. -/
def pollLoop (env : Env) (prov_handle : ProvHandle) (num_of_loops : Nat) (ctx : DpsCbContext) :
    DpsCbContext × List Event :=
  let callback := env.Prov_Device_LL_DoWork prov_handle 0
  let ctx1 := doWorkCallback callback ctx
  let num_of_loops1 := (num_of_loops + UINT_RANGE - 1) % UINT_RANGE
  let rest := pollWhile env prov_handle num_of_loops1 1 ctx1
  (rest.1, Event.Prov_Device_LL_DoWork prov_handle callback
            :: Event.msleep PROV_CHECK_LOOP :: rest.2)

/-- The function of lines 108-268.  `idScope = none` is a `NULL` scope pointer:
line 117 passes it to `strncmp`, which dereferences it, so the call has no
defined result (`none`).  `timeout` is read as an `unsigned int`. -/
def IoTHubDeviceClient_LL_CreateWithAzureSphereDeviceAuthProvisioningV2 (env : Env)
    (idScope : Option String) (timeout : Nat) (handle : Option (Option HubHandle)) :
    Option Run :=
  match idScope with
  | none => none
  | some scope =>
  some <|
  let device_id : Int := 1
  -- lines 117-125
  match (if strncmp scope.data CHINA_DPS_IDSCOPE_PREFIX.data (strlen CHINA_DPS_IDSCOPE_PREFIX) = 0
          then some (CHINA_DPS_ENDPOINT, true)
         else if strncmp scope.data GLOBAL_DPS_IDSCOPE_PREFIX.data
              (strlen GLOBAL_DPS_IDSCOPE_PREFIX) = 0
          then some (GLOBAL_DPS_ENDPOINT, false)
         else none) with
  | none => ⟨⟨.INVALID_PARAM, none, none⟩, handle, []⟩
  | some (dps_endpoint, isChinaDps) =>
  -- lines 127-130
  match handle with
  | none => ⟨⟨.INVALID_PARAM, none, none⟩, none, []⟩
  | some handle0 =>
  if idScope.isNone then ⟨⟨.INVALID_PARAM, none, none⟩, some handle0, []⟩ else
  -- lines 132-143
  let t1 := [Event.Networking_IsNetworkingReady]
  if env.Networking_IsNetworkingReady.1 < 0 then
    ⟨⟨.GENERIC_ERROR, none, none⟩, some handle0, t1⟩ else
  let is_network_ready := env.Networking_IsNetworkingReady.2
  if !is_network_ready then
    ⟨⟨.NETWORK_NOT_READY, none, none⟩, some handle0, t1⟩ else
  -- lines 145-156
  let t2 := t1 ++ [Event.Application_IsDeviceAuthReady]
  if env.Application_IsDeviceAuthReady.1 < 0 then
    ⟨⟨.GENERIC_ERROR, none, none⟩, some handle0, t2⟩ else
  let is_daa_ready := env.Application_IsDeviceAuthReady.2
  if !is_daa_ready then
    ⟨⟨.DEVICEAUTH_NOT_READY, none, none⟩, some handle0, t2⟩ else
  -- lines 158-162
  let t3 := t2 ++ [Event.prov_dev_security_init]
  if env.prov_dev_security_init ≠ 0 then
    ⟨⟨.GENERIC_ERROR, none, none⟩, some handle0, t3⟩ else
  -- lines 164-168
  let ctx : DpsCbContext := freshContext
  -- lines 170-177
  let created := env.Prov_Device_LL_Create dps_endpoint scope
  let t4 := t3 ++ [Event.Prov_Device_LL_Create dps_endpoint scope created]
  match created with
  | none =>
    ⟨⟨.PROV_DEVICE_ERROR, some .ERROR, none⟩, some handle0,
      t4 ++ [Event.prov_dev_security_deinit]⟩
  | some prov_handle =>
  -- lines 179-186
  let e1 := env.Prov_Device_LL_SetOption prov_handle "SetDeviceId" (.deviceId device_id)
  let t5 := t4 ++ [Event.Prov_Device_LL_SetOption prov_handle "SetDeviceId"
                    (.deviceId device_id) e1]
  if e1 ≠ .OK then
    ⟨⟨.PROV_DEVICE_ERROR, some e1, none⟩, some handle0,
      t5 ++ [Event.Prov_Device_LL_Destroy prov_handle, Event.prov_dev_security_deinit]⟩ else
  -- lines 188-197
  let e2 := env.Prov_Device_LL_SetOption prov_handle env.OPTION_TRUSTED_CERT
              (.cert digiCertGlobalRootCA)
  let t6 := if isChinaDps then
              t5 ++ [Event.Prov_Device_LL_SetOption prov_handle env.OPTION_TRUSTED_CERT
                      (.cert digiCertGlobalRootCA) e2]
            else t5
  if isChinaDps && e2 ≠ .OK then
    ⟨⟨.PROV_DEVICE_ERROR, some e2, none⟩, some handle0,
      t6 ++ [Event.Prov_Device_LL_Destroy prov_handle, Event.prov_dev_security_deinit]⟩ else
  -- lines 199-206
  let e3 := env.Prov_Device_LL_Register_Device prov_handle
  let t7 := t6 ++ [Event.Prov_Device_LL_Register_Device prov_handle e3]
  if e3 ≠ .OK then
    ⟨⟨.PROV_DEVICE_ERROR, some e3, none⟩, some handle0,
      t7 ++ [Event.Prov_Device_LL_Destroy prov_handle, Event.prov_dev_security_deinit]⟩ else
  -- lines 208-213
  let num_of_loops := timeout % UINT_RANGE / PROV_CHECK_LOOP
  let polled := pollLoop env prov_handle num_of_loops ctx
  let ctx2 := polled.1
  -- line 215
  let t8 := t7 ++ polled.2 ++ [Event.Prov_Device_LL_Destroy prov_handle]
  -- lines 217-232
  if !ctx2.registration_complete then
    ⟨⟨.PROV_DEVICE_ERROR, some .TIMEOUT, none⟩, some handle0,
      t8 ++ [Event.prov_dev_security_deinit]⟩ else
  if ctx2.error_code ≠ .OK then
    ⟨⟨.PROV_DEVICE_ERROR, some ctx2.error_code, none⟩, some handle0,
      t8 ++ [Event.prov_dev_security_deinit]⟩ else
  -- lines 234-243
  let hub := env.IoTHubDeviceClient_LL_CreateWithAzureSphereFromDeviceAuth ctx2.iothub_uri
  let t9 := t8 ++ [Event.IoTHubDeviceClient_LL_CreateWithAzureSphereFromDeviceAuth
                    ctx2.iothub_uri hub]
  match hub with
  | none =>
    ⟨⟨.PROV_DEVICE_ERROR, some .DEV_AUTH_ERROR, none⟩, some none,
      t9 ++ [Event.free ctx2.iothub_uri, Event.prov_dev_security_deinit]⟩
  | some hub_handle =>
  -- line 245
  let t10 := t9 ++ [Event.free ctx2.iothub_uri]
  -- lines 247-253
  let e4 := env.IoTHubDeviceClient_LL_SetOption hub_handle "SetDeviceId" (.deviceId device_id)
  let t11 := t10 ++ [Event.IoTHubDeviceClient_LL_SetOption hub_handle "SetDeviceId"
                      (.deviceId device_id) e4]
  if e4 ≠ .OK then
    ⟨⟨.IOTHUB_CLIENT_ERROR, some e3, some e4⟩, some (some hub_handle),
      t11 ++ [Event.prov_dev_security_deinit]⟩ else
  -- lines 255-263
  let e5 := env.IoTHubDeviceClient_LL_SetOption hub_handle env.OPTION_TRUSTED_CERT
              (.cert digiCertGlobalRootCA)
  let t12 := if ctx2.is_china_iothub then
               t11 ++ [Event.IoTHubDeviceClient_LL_SetOption hub_handle env.OPTION_TRUSTED_CERT
                        (.cert digiCertGlobalRootCA) e5]
             else t11
  if ctx2.is_china_iothub && e5 ≠ .OK then
    ⟨⟨.IOTHUB_CLIENT_ERROR, some e3, some e5⟩, some (some hub_handle),
      t12 ++ [Event.prov_dev_security_deinit]⟩ else
  -- lines 265-267
  ⟨⟨.OK, some e3, some (if ctx2.is_china_iothub then e5 else e4)⟩, some (some hub_handle),
    t12 ++ [Event.prov_dev_security_deinit]⟩

/-! ## Vocabulary for the return paths -/

/-- The calls made by `k` do-work ticks during which the callback is not invoked. -/
def idleTicks (prov_handle : ProvHandle) : Nat → List Event
  | 0 => []
  | k + 1 => Event.Prov_Device_LL_DoWork prov_handle none
      :: Event.msleep PROV_CHECK_LOOP :: idleTicks prov_handle k

/-- The largest number of do-work ticks the loop of lines 209-213 makes when it
starts with budget `num_of_loops`. -/
def maxTicks (num_of_loops : Nat) : Nat := (num_of_loops + UINT_RANGE - 1) % UINT_RANGE + 1

/-- The two rows of the scope-prefix table: `Region scope host china` holds when
`scope` selects the DPS endpoint `host`, `china` telling which row it is. -/
def Region (scope host : String) (china : Bool) : Prop :=
  (CHINA_DPS_IDSCOPE_PREFIX.data <+: scope.data ∧ host = CHINA_DPS_ENDPOINT ∧ china = true) ∨
  (¬ CHINA_DPS_IDSCOPE_PREFIX.data <+: scope.data ∧
    GLOBAL_DPS_IDSCOPE_PREFIX.data <+: scope.data ∧ host = GLOBAL_DPS_ENDPOINT ∧ china = false)

/-- Both probes report ready and the attest subsystem initialises. -/
def Ready (env : Env) : Prop :=
  ¬ env.Networking_IsNetworkingReady.1 < 0 ∧ env.Networking_IsNetworkingReady.2 = true ∧
  ¬ env.Application_IsDeviceAuthReady.1 < 0 ∧ env.Application_IsDeviceAuthReady.2 = true ∧
  env.prov_dev_security_init = 0

/-- The calls of a run up to, and without, `Prov_Device_LL_Register_Device`,
when everything before it succeeds. -/
def setupTrace (env : Env) (scope host : String) (china : Bool) (h : ProvHandle) : List Event :=
  [.Networking_IsNetworkingReady, .Application_IsDeviceAuthReady, .prov_dev_security_init,
   .Prov_Device_LL_Create host scope (some h),
   .Prov_Device_LL_SetOption h "SetDeviceId" (.deviceId 1) .OK] ++
  (if china then
    [.Prov_Device_LL_SetOption h env.OPTION_TRUSTED_CERT (.cert digiCertGlobalRootCA) .OK]
   else [])

/-- The DPS client `h` is created and configured for `scope`. -/
def Configured (env : Env) (scope host : String) (china : Bool) (h : ProvHandle) : Prop :=
  Region scope host china ∧ Ready env ∧ env.Prov_Device_LL_Create host scope = some h ∧
  env.Prov_Device_LL_SetOption h "SetDeviceId" (.deviceId 1) = .OK ∧
  (china = true →
    env.Prov_Device_LL_SetOption h env.OPTION_TRUSTED_CERT (.cert digiCertGlobalRootCA) = .OK)

/-- The calls of a run from the start to the tick `k` (counted from 0) on which
the callback is invoked with `(r, u)`, and the destruction of the DPS client. -/
def polledTrace (env : Env) (scope host : String) (china : Bool) (h : ProvHandle) (k : Nat)
    (r : PROV_DEVICE_RESULT) (u : String) : List Event :=
  setupTrace env scope host china h ++ [.Prov_Device_LL_Register_Device h .OK] ++
  idleTicks h k ++ [.Prov_Device_LL_DoWork h (some (r, u)), .msleep PROV_CHECK_LOOP,
    .Prov_Device_LL_Destroy h]

/-- The registration is accepted and the callback is first invoked on tick `k`,
within the budget, with `(r, u)`. -/
def Fires (env : Env) (timeout : Nat) (h : ProvHandle) (k : Nat) (r : PROV_DEVICE_RESULT)
    (u : String) : Prop :=
  env.Prov_Device_LL_Register_Device h = .OK ∧
  k < maxTicks (timeout % UINT_RANGE / PROV_CHECK_LOOP) ∧
  (∀ j, j < k → env.Prov_Device_LL_DoWork h j = none) ∧
  env.Prov_Device_LL_DoWork h k = some (r, u)

/-- The return paths of the function, one constructor for each `return` of the
source (the loop of lines 209-213 being resolved into "never invoked" and
"first invoked on tick `k`"). -/
inductive RunShape (env : Env) (scope : String) (timeout : Nat) :
    Option (Option HubHandle) → Run → Prop
  | badPrefix (handle : Option (Option HubHandle)) :
      ¬ CHINA_DPS_IDSCOPE_PREFIX.data <+: scope.data →
      ¬ GLOBAL_DPS_IDSCOPE_PREFIX.data <+: scope.data →
      RunShape env scope timeout handle ⟨⟨.INVALID_PARAM, none, none⟩, handle, []⟩
  | nullHandle (host : String) (china : Bool) :
      Region scope host china →
      RunShape env scope timeout none ⟨⟨.INVALID_PARAM, none, none⟩, none, []⟩
  | networkFailed (host : String) (china : Bool) (h0 : Option HubHandle) :
      Region scope host china →
      env.Networking_IsNetworkingReady.1 < 0 →
      RunShape env scope timeout (some h0)
        ⟨⟨.GENERIC_ERROR, none, none⟩, some h0, [.Networking_IsNetworkingReady]⟩
  | networkNotReady (host : String) (china : Bool) (h0 : Option HubHandle) :
      Region scope host china →
      ¬ env.Networking_IsNetworkingReady.1 < 0 → env.Networking_IsNetworkingReady.2 = false →
      RunShape env scope timeout (some h0)
        ⟨⟨.NETWORK_NOT_READY, none, none⟩, some h0, [.Networking_IsNetworkingReady]⟩
  | deviceAuthFailed (host : String) (china : Bool) (h0 : Option HubHandle) :
      Region scope host china →
      ¬ env.Networking_IsNetworkingReady.1 < 0 → env.Networking_IsNetworkingReady.2 = true →
      env.Application_IsDeviceAuthReady.1 < 0 →
      RunShape env scope timeout (some h0)
        ⟨⟨.GENERIC_ERROR, none, none⟩, some h0,
          [.Networking_IsNetworkingReady, .Application_IsDeviceAuthReady]⟩
  | deviceAuthNotReady (host : String) (china : Bool) (h0 : Option HubHandle) :
      Region scope host china →
      ¬ env.Networking_IsNetworkingReady.1 < 0 → env.Networking_IsNetworkingReady.2 = true →
      ¬ env.Application_IsDeviceAuthReady.1 < 0 → env.Application_IsDeviceAuthReady.2 = false →
      RunShape env scope timeout (some h0)
        ⟨⟨.DEVICEAUTH_NOT_READY, none, none⟩, some h0,
          [.Networking_IsNetworkingReady, .Application_IsDeviceAuthReady]⟩
  | securityInitFailed (host : String) (china : Bool) (h0 : Option HubHandle) :
      Region scope host china →
      ¬ env.Networking_IsNetworkingReady.1 < 0 → env.Networking_IsNetworkingReady.2 = true →
      ¬ env.Application_IsDeviceAuthReady.1 < 0 → env.Application_IsDeviceAuthReady.2 = true →
      env.prov_dev_security_init ≠ 0 →
      RunShape env scope timeout (some h0)
        ⟨⟨.GENERIC_ERROR, none, none⟩, some h0,
          [.Networking_IsNetworkingReady, .Application_IsDeviceAuthReady,
           .prov_dev_security_init]⟩
  | createFailed (host : String) (china : Bool) (h0 : Option HubHandle) :
      Region scope host china → Ready env →
      env.Prov_Device_LL_Create host scope = none →
      RunShape env scope timeout (some h0)
        ⟨⟨.PROV_DEVICE_ERROR, some .ERROR, none⟩, some h0,
          [.Networking_IsNetworkingReady, .Application_IsDeviceAuthReady,
           .prov_dev_security_init, .Prov_Device_LL_Create host scope none,
           .prov_dev_security_deinit]⟩
  | deviceIdFailed (host : String) (china : Bool) (h0 : Option HubHandle) (h : ProvHandle)
      (c : PROV_DEVICE_RESULT) :
      Region scope host china → Ready env →
      env.Prov_Device_LL_Create host scope = some h →
      env.Prov_Device_LL_SetOption h "SetDeviceId" (.deviceId 1) = c → c ≠ .OK →
      RunShape env scope timeout (some h0)
        ⟨⟨.PROV_DEVICE_ERROR, some c, none⟩, some h0,
          [.Networking_IsNetworkingReady, .Application_IsDeviceAuthReady,
           .prov_dev_security_init, .Prov_Device_LL_Create host scope (some h),
           .Prov_Device_LL_SetOption h "SetDeviceId" (.deviceId 1) c,
           .Prov_Device_LL_Destroy h, .prov_dev_security_deinit]⟩
  | trustedCertFailed (host : String) (h0 : Option HubHandle) (h : ProvHandle)
      (c : PROV_DEVICE_RESULT) :
      Region scope host true → Ready env →
      env.Prov_Device_LL_Create host scope = some h →
      env.Prov_Device_LL_SetOption h "SetDeviceId" (.deviceId 1) = .OK →
      env.Prov_Device_LL_SetOption h env.OPTION_TRUSTED_CERT (.cert digiCertGlobalRootCA) = c →
      c ≠ .OK →
      RunShape env scope timeout (some h0)
        ⟨⟨.PROV_DEVICE_ERROR, some c, none⟩, some h0,
          [.Networking_IsNetworkingReady, .Application_IsDeviceAuthReady,
           .prov_dev_security_init, .Prov_Device_LL_Create host scope (some h),
           .Prov_Device_LL_SetOption h "SetDeviceId" (.deviceId 1) .OK,
           .Prov_Device_LL_SetOption h env.OPTION_TRUSTED_CERT (.cert digiCertGlobalRootCA) c,
           .Prov_Device_LL_Destroy h, .prov_dev_security_deinit]⟩
  | registerFailed (host : String) (china : Bool) (h0 : Option HubHandle) (h : ProvHandle)
      (c : PROV_DEVICE_RESULT) :
      Configured env scope host china h →
      env.Prov_Device_LL_Register_Device h = c → c ≠ .OK →
      RunShape env scope timeout (some h0)
        ⟨⟨.PROV_DEVICE_ERROR, some c, none⟩, some h0,
          setupTrace env scope host china h ++
            [.Prov_Device_LL_Register_Device h c, .Prov_Device_LL_Destroy h,
             .prov_dev_security_deinit]⟩
  | timedOut (host : String) (china : Bool) (h0 : Option HubHandle) (h : ProvHandle) :
      Configured env scope host china h →
      env.Prov_Device_LL_Register_Device h = .OK →
      (∀ j, j < maxTicks (timeout % UINT_RANGE / PROV_CHECK_LOOP) →
        env.Prov_Device_LL_DoWork h j = none) →
      RunShape env scope timeout (some h0)
        ⟨⟨.PROV_DEVICE_ERROR, some .TIMEOUT, none⟩, some h0,
          setupTrace env scope host china h ++ [.Prov_Device_LL_Register_Device h .OK] ++
            idleTicks h (maxTicks (timeout % UINT_RANGE / PROV_CHECK_LOOP)) ++
            [.Prov_Device_LL_Destroy h, .prov_dev_security_deinit]⟩
  | registrationFailed (host : String) (china : Bool) (h0 : Option HubHandle) (h : ProvHandle)
      (k : Nat) (r : PROV_DEVICE_RESULT) (u : String) :
      Configured env scope host china h → Fires env timeout h k r u → r ≠ .OK →
      RunShape env scope timeout (some h0)
        ⟨⟨.PROV_DEVICE_ERROR, some r, none⟩, some h0,
          polledTrace env scope host china h k r u ++ [.prov_dev_security_deinit]⟩
  | hubCreateFailed (host : String) (china : Bool) (h0 : Option HubHandle) (h : ProvHandle)
      (k : Nat) (u : String) :
      Configured env scope host china h → Fires env timeout h k .OK u →
      env.IoTHubDeviceClient_LL_CreateWithAzureSphereFromDeviceAuth (some u) = none →
      RunShape env scope timeout (some h0)
        ⟨⟨.PROV_DEVICE_ERROR, some .DEV_AUTH_ERROR, none⟩, some none,
          polledTrace env scope host china h k .OK u ++
            [.IoTHubDeviceClient_LL_CreateWithAzureSphereFromDeviceAuth (some u) none,
             .free (some u), .prov_dev_security_deinit]⟩
  | hubDeviceIdFailed (host : String) (china : Bool) (h0 : Option HubHandle) (h : ProvHandle)
      (k : Nat) (u : String) (hub : HubHandle) (c : IOTHUB_CLIENT_RESULT) :
      Configured env scope host china h → Fires env timeout h k .OK u →
      env.IoTHubDeviceClient_LL_CreateWithAzureSphereFromDeviceAuth (some u) = some hub →
      env.IoTHubDeviceClient_LL_SetOption hub "SetDeviceId" (.deviceId 1) = c → c ≠ .OK →
      RunShape env scope timeout (some h0)
        ⟨⟨.IOTHUB_CLIENT_ERROR, some .OK, some c⟩, some (some hub),
          polledTrace env scope host china h k .OK u ++
            [.IoTHubDeviceClient_LL_CreateWithAzureSphereFromDeviceAuth (some u) (some hub),
             .free (some u),
             .IoTHubDeviceClient_LL_SetOption hub "SetDeviceId" (.deviceId 1) c,
             .prov_dev_security_deinit]⟩
  | hubTrustedCertFailed (host : String) (china : Bool) (h0 : Option HubHandle)
      (h : ProvHandle) (k : Nat) (u : String) (hub : HubHandle) (c : IOTHUB_CLIENT_RESULT) :
      Configured env scope host china h → Fires env timeout h k .OK u →
      env.IoTHubDeviceClient_LL_CreateWithAzureSphereFromDeviceAuth (some u) = some hub →
      env.IoTHubDeviceClient_LL_SetOption hub "SetDeviceId" (.deviceId 1) = .OK →
      CHINA_IOTHUB_SUFFIX.data <:+: u.data →
      env.IoTHubDeviceClient_LL_SetOption hub env.OPTION_TRUSTED_CERT
        (.cert digiCertGlobalRootCA) = c → c ≠ .OK →
      RunShape env scope timeout (some h0)
        ⟨⟨.IOTHUB_CLIENT_ERROR, some .OK, some c⟩, some (some hub),
          polledTrace env scope host china h k .OK u ++
            [.IoTHubDeviceClient_LL_CreateWithAzureSphereFromDeviceAuth (some u) (some hub),
             .free (some u),
             .IoTHubDeviceClient_LL_SetOption hub "SetDeviceId" (.deviceId 1) .OK,
             .IoTHubDeviceClient_LL_SetOption hub env.OPTION_TRUSTED_CERT
               (.cert digiCertGlobalRootCA) c,
             .prov_dev_security_deinit]⟩
  | provisionedChina (host : String) (china : Bool) (h0 : Option HubHandle)
      (h : ProvHandle) (k : Nat) (u : String) (hub : HubHandle) :
      Configured env scope host china h → Fires env timeout h k .OK u →
      env.IoTHubDeviceClient_LL_CreateWithAzureSphereFromDeviceAuth (some u) = some hub →
      env.IoTHubDeviceClient_LL_SetOption hub "SetDeviceId" (.deviceId 1) = .OK →
      CHINA_IOTHUB_SUFFIX.data <:+: u.data →
      env.IoTHubDeviceClient_LL_SetOption hub env.OPTION_TRUSTED_CERT
        (.cert digiCertGlobalRootCA) = .OK →
      RunShape env scope timeout (some h0)
        ⟨⟨.OK, some .OK, some .OK⟩, some (some hub),
          polledTrace env scope host china h k .OK u ++
            [.IoTHubDeviceClient_LL_CreateWithAzureSphereFromDeviceAuth (some u) (some hub),
             .free (some u),
             .IoTHubDeviceClient_LL_SetOption hub "SetDeviceId" (.deviceId 1) .OK,
             .IoTHubDeviceClient_LL_SetOption hub env.OPTION_TRUSTED_CERT
               (.cert digiCertGlobalRootCA) .OK,
             .prov_dev_security_deinit]⟩
  | provisioned (host : String) (china : Bool) (h0 : Option HubHandle)
      (h : ProvHandle) (k : Nat) (u : String) (hub : HubHandle) :
      Configured env scope host china h → Fires env timeout h k .OK u →
      env.IoTHubDeviceClient_LL_CreateWithAzureSphereFromDeviceAuth (some u) = some hub →
      env.IoTHubDeviceClient_LL_SetOption hub "SetDeviceId" (.deviceId 1) = .OK →
      ¬ CHINA_IOTHUB_SUFFIX.data <:+: u.data →
      RunShape env scope timeout (some h0)
        ⟨⟨.OK, some .OK, some .OK⟩, some (some hub),
          polledTrace env scope host china h k .OK u ++
            [.IoTHubDeviceClient_LL_CreateWithAzureSphereFromDeviceAuth (some u) (some hub),
             .free (some u),
             .IoTHubDeviceClient_LL_SetOption hub "SetDeviceId" (.deviceId 1) .OK,
             .prov_dev_security_deinit]⟩

/-! ## Vocabulary for the statements -/

/-- The event is a do-work tick. -/
def Event.isDoWork : Event → Bool
  | .Prov_Device_LL_DoWork _ _ => true
  | _ => false

/-- The DPS client an event operates on, if it is a DPS-client operation. -/
def Event.provHandle? : Event → Option ProvHandle
  | .Prov_Device_LL_SetOption h _ _ _ => some h
  | .Prov_Device_LL_Register_Device h _ => some h
  | .Prov_Device_LL_DoWork h _ => some h
  | .Prov_Device_LL_Destroy h => some h
  | _ => none

/-- The scope-prefix table as the spec words it (§4.1, §6): a scope starting
with `0cn` selects the regional-variant DPS host, else one starting with `0ne`
selects the primary DPS host, and every other scope is rejected (`none`). -/
def specRegionResolver (scope : String) : Option String :=
  if "0cn".data <+: scope.data then some "global.azure-devices-provisioning.cn"
  else if "0ne".data <+: scope.data then some "global.azure-devices-provisioning.net"
  else none

/-- A sample environment: both probes ready, attest init succeeds, the DPS client
`1` and the hub client `7` are created, every DPS call succeeds; the callback
schedule and the answer of the hub client to `SetOption` are the parameters. -/
def sampleEnv (doWork : Nat → Option (PROV_DEVICE_RESULT × String))
    (hubOption : IOTHUB_CLIENT_RESULT) : Env where
  Networking_IsNetworkingReady := (0, true)
  Application_IsDeviceAuthReady := (0, true)
  prov_dev_security_init := 0
  Prov_Device_LL_Create := fun _ _ => some 1
  Prov_Device_LL_SetOption := fun _ _ _ => .OK
  Prov_Device_LL_Register_Device := fun _ => .OK
  Prov_Device_LL_DoWork := fun _ k => doWork k
  IoTHubDeviceClient_LL_CreateWithAzureSphereFromDeviceAuth := fun _ => some 7
  IoTHubDeviceClient_LL_SetOption := fun _ _ _ => hubOption
  OPTION_TRUSTED_CERT := "TrustedCerts"

/-- The callback is never invoked. -/
def neverFires : Nat → Option (PROV_DEVICE_RESULT × String) := fun _ => none

/-- The callback is invoked on tick `k` (counted from 0) with `OK` and `uri`. -/
def firesAt (k : Nat) (uri : String) : Nat → Option (PROV_DEVICE_RESULT × String) :=
  fun j => if j = k then some (.OK, uri) else none

/-- A sample environment whose network probe reports not-ready. -/
def networkDownEnv : Env :=
  { sampleEnv neverFires .OK with Networking_IsNetworkingReady := (0, false) }

/-! ## `register_device_callback` with its buffers

The same callback one level lower: `char*` values are buffer addresses and the
characters live in a memory, so that the buffer a pointer designates can be
told apart from its contents.  `Mem.erase` maps this level onto the one above. -/

namespace Mem

/-- The address of a buffer; a `char*` that may be `NULL` is an `Option Addr`. -/
abbrev Addr := Nat

/-- The C strings in memory: the characters held by the buffer at each live
address, `none` at an address where no buffer is live. -/
abbrev Memory := Addr → Option String

/-- The struct of lines 43-48, with `iothub_uri` as the pointer it is. -/
structure DpsCbContext where
  registration_complete : Bool
  is_china_iothub : Bool
  iothub_uri : Option Addr
  error_code : PROV_DEVICE_RESULT
  deriving DecidableEq, Repr

/-- The registration context as lines 164-168 initialise it. -/
def freshContext : DpsCbContext :=
  { registration_complete := false, is_china_iothub := false, iothub_uri := none,
    error_code := .OK }

/-- The C `strcpy(dst, src)` into the buffer at `dst`: afterwards that buffer
holds the characters of `src`, every other buffer is unchanged. -/
def strcpy (mem : Memory) (dst : Addr) (src : String) : Memory :=
  fun a => if a = dst then some src else mem a

/-- The callback of lines 87-106 on addresses.  `malloc n` is what the allocator
returns for a request of `n` bytes (`none` for `NULL`).  The result is `none`
where the source dereferences a pointer that is `NULL` or designates no live
buffer: `strlen(iothub_uri)` on line 93, `strcpy` into an unchecked `malloc`
result on line 94. -/
def register_device_callback (malloc : Nat → Option Addr)
    (register_result : PROV_DEVICE_RESULT) (iothub_uri : Option Addr) (pctx : DpsCbContext)
    (mem : Memory) : Option (DpsCbContext × Memory) :=
  if register_result = PROV_DEVICE_RESULT.OK then
    match iothub_uri.bind mem with
    | none => none
    | some src =>
      match malloc (strlen src + 1) with
      | none => none
      | some p =>
        let pctx1 := { pctx with iothub_uri := some p }
        let mem1 := strcpy mem p src
        match pctx1.iothub_uri.bind mem1 with
        | none => none
        | some copied =>
          let pctx2 :=
            if strstr copied.data CHINA_IOTHUB_SUFFIX.data ≠ none then
              { pctx1 with is_china_iothub := true }
            else pctx1
          some ({ pctx2 with error_code := register_result, registration_complete := true },
                mem1)
  else
    some ({ pctx with error_code := register_result, registration_complete := true }, mem)

/-- The registration context with its pointer replaced by the string it
designates. -/
def erase (mem : Memory) (ctx : DpsCbContext) : AzureSphereProv.DpsCbContext :=
  { registration_complete := ctx.registration_complete,
    is_china_iothub := ctx.is_china_iothub,
    iothub_uri := ctx.iothub_uri.bind mem,
    error_code := ctx.error_code }

end Mem

/-! ## Facts about the string functions -/

theorem char_sub_ne_zero {a b : Char} (h : a ≠ b) : (a.toNat : Int) - (b.toNat : Int) ≠ 0 := by
  intro h0
  apply h
  have h1 : a.toNat = b.toNat := by omega
  apply Char.eq_of_val_eq
  cases a with
  | mk va ha =>
    cases b with
    | mk vb hb =>
      simp only [Char.toNat] at h1
      exact UInt32.ext (by simpa using h1)

theorem strncmp_eq_zero_iff (p : List Char) (hp : ∀ c ∈ p, c.toNat ≠ 0) :
    ∀ s : List Char, strncmp s p p.length = 0 ↔ p <+: s := by
  induction p with
  | nil => intro s; simp [strncmp]
  | cons b bs ih =>
    intro s
    have hb : b.toNat ≠ 0 := hp b (List.mem_cons_self _ _)
    have ih1 := ih (fun c hc => hp c (List.mem_cons_of_mem _ hc))
    cases s with
    | nil =>
      simp only [List.length_cons, strncmp]
      constructor
      · intro h; omega
      · intro h; simp at h
    | cons a as =>
      simp only [List.length_cons, strncmp]
      by_cases hab : a = b
      · subst hab
        simp [ih1 as, List.cons_prefix_cons]
      · have := char_sub_ne_zero hab
        simp [hab, this, List.cons_prefix_cons]
        intro h; exact absurd h.symm hab

theorem strstr_ne_none_iff (needle : List Char) :
    ∀ haystack : List Char, strstr haystack needle ≠ none ↔ needle <:+: haystack := by
  intro haystack
  induction haystack with
  | nil =>
    cases needle <;> simp [strstr]
  | cons c cs ih =>
    simp only [strstr]
    by_cases hpre : needle.isPrefixOf (c :: cs) = true
    · simp only [hpre, if_true]
      have : needle <+: c :: cs := List.isPrefixOf_iff_prefix.mp hpre
      simp [this.isInfix]
    · have hite : (if needle.isPrefixOf (c :: cs) = true then some (c :: cs)
          else strstr cs needle) = strstr cs needle := if_neg hpre
      rw [hite, ih]
      have hnp : ¬ needle <+: c :: cs := fun h => hpre (List.isPrefixOf_iff_prefix.mpr h)
      rw [List.infix_cons_iff]
      simp [hnp]

/-! ## Facts about the callback and the polling loop -/


theorem callback_complete (r : PROV_DEVICE_RESULT) (u : String) (ctx : DpsCbContext) :
    (register_device_callback r u ctx).registration_complete = true := by
  unfold register_device_callback
  split <;> simp

theorem callback_error_code (r : PROV_DEVICE_RESULT) (u : String) (ctx : DpsCbContext) :
    (register_device_callback r u ctx).error_code = r := by
  unfold register_device_callback
  split <;> simp

theorem callback_ok_uri (u : String) (ctx : DpsCbContext) :
    (register_device_callback .OK u ctx).iothub_uri = some u := by
  unfold register_device_callback
  simp only [if_true]
  split <;> rfl

theorem callback_ok_china (u : String) :
    (register_device_callback .OK u freshContext).is_china_iothub = true
      ↔ CHINA_IOTHUB_SUFFIX.data <:+: u.data := by
  unfold register_device_callback
  rw [← strstr_ne_none_iff]
  simp only [if_true]
  split <;> simp_all [freshContext]

theorem pollWhile_of_complete (env : Env) (h : ProvHandle) (n tick : Nat) (ctx : DpsCbContext)
    (hc : ctx.registration_complete = true) : pollWhile env h n tick ctx = (ctx, []) := by
  cases n <;> simp [pollWhile, hc]

theorem idleTicks_append (h : ProvHandle) (k : Nat) (l : List Event) :
    idleTicks h (k + 1) ++ l
      = Event.Prov_Device_LL_DoWork h none :: Event.msleep PROV_CHECK_LOOP
          :: (idleTicks h k ++ l) := rfl

theorem pollWhile_spec (env : Env) (h : ProvHandle) :
    ∀ (n tick : Nat) (ctx : DpsCbContext), ctx.registration_complete = false →
      ((∀ j, j < n → env.Prov_Device_LL_DoWork h (tick + j) = none) ∧
          pollWhile env h n tick ctx = (ctx, idleTicks h n)) ∨
      (∃ k r u, k < n ∧ (∀ j, j < k → env.Prov_Device_LL_DoWork h (tick + j) = none) ∧
          env.Prov_Device_LL_DoWork h (tick + k) = some (r, u) ∧
          pollWhile env h n tick ctx
            = (register_device_callback r u ctx,
               idleTicks h k ++ [Event.Prov_Device_LL_DoWork h (some (r, u)),
                                 Event.msleep PROV_CHECK_LOOP])) := by
  intro n
  induction n with
  | zero =>
    intro tick ctx _
    left
    exact ⟨fun j hj => absurd hj (Nat.not_lt_zero j), rfl⟩
  | succ n ih =>
    intro tick ctx hc
    cases hcb : env.Prov_Device_LL_DoWork h tick with
    | none =>
      have hstep : pollWhile env h (n + 1) tick ctx
          = ((pollWhile env h n (tick + 1) ctx).1,
              Event.Prov_Device_LL_DoWork h none :: Event.msleep PROV_CHECK_LOOP
                :: (pollWhile env h n (tick + 1) ctx).2) := by
        simp [pollWhile, hc, hcb, doWorkCallback]
      rcases ih (tick + 1) ctx hc with ⟨hall, heq⟩ | ⟨k, r, u, hk, hall, hat, heq⟩
      · left
        refine ⟨?_, ?_⟩
        · intro j hj
          cases j with
          | zero => simpa using hcb
          | succ j =>
            have := hall j (by omega)
            rw [← this]; congr 1; omega
        · rw [hstep, heq]; rfl
      · right
        refine ⟨k + 1, r, u, by omega, ?_, ?_, ?_⟩
        · intro j hj
          cases j with
          | zero => simpa using hcb
          | succ j =>
            have := hall j (by omega)
            rw [← this]; congr 1; omega
        · rw [← hat]; congr 1; omega
        · rw [hstep, heq, idleTicks_append]
    | some cb =>
      obtain ⟨r, u⟩ := cb
      right
      refine ⟨0, r, u, by omega, fun j hj => absurd hj (Nat.not_lt_zero j), by simpa using hcb, ?_⟩
      simp [pollWhile, hc, hcb, doWorkCallback,
        pollWhile_of_complete env h n (tick + 1) _ (callback_complete r u ctx), idleTicks]

theorem pollLoop_spec (env : Env) (h : ProvHandle) (N : Nat) (ctx : DpsCbContext)
    (hc : ctx.registration_complete = false) :
    ((∀ j, j < maxTicks N → env.Prov_Device_LL_DoWork h j = none) ∧
        pollLoop env h N ctx = (ctx, idleTicks h (maxTicks N))) ∨
    (∃ k r u, k < maxTicks N ∧ (∀ j, j < k → env.Prov_Device_LL_DoWork h j = none) ∧
        env.Prov_Device_LL_DoWork h k = some (r, u) ∧
        pollLoop env h N ctx
          = (register_device_callback r u ctx,
             idleTicks h k ++ [Event.Prov_Device_LL_DoWork h (some (r, u)),
                               Event.msleep PROV_CHECK_LOOP])) := by
  obtain ⟨m, hm⟩ : ∃ m, maxTicks N = m + 1 := ⟨_, rfl⟩
  have hloop : pollLoop env h N ctx
      = ((pollWhile env h m 1 (doWorkCallback (env.Prov_Device_LL_DoWork h 0) ctx)).1,
          Event.Prov_Device_LL_DoWork h (env.Prov_Device_LL_DoWork h 0)
            :: Event.msleep PROV_CHECK_LOOP
            :: (pollWhile env h m 1 (doWorkCallback (env.Prov_Device_LL_DoWork h 0) ctx)).2) := by
    have hm1 : (N + UINT_RANGE - 1) % UINT_RANGE = m := Nat.succ.inj hm
    simp only [pollLoop, hm1]
  rw [hm]
  generalize maxTicks N = M at hm
  cases hcb : env.Prov_Device_LL_DoWork h 0 with
  | none =>
    rw [hcb] at hloop
    have hstep : pollLoop env h N ctx
        = ((pollWhile env h m 1 ctx).1,
            Event.Prov_Device_LL_DoWork h none :: Event.msleep PROV_CHECK_LOOP
              :: (pollWhile env h m 1 ctx).2) := by
      rw [hloop]; rfl
    rcases pollWhile_spec env h m 1 ctx hc with
      ⟨hall, heq⟩ | ⟨k, r, u, hk, hall, hat, heq⟩
    · left
      refine ⟨?_, ?_⟩
      · intro j hj
        cases j with
        | zero => exact hcb
        | succ j =>
          have := hall j (by omega)
          rw [← this]; congr 1; omega
      · rw [hstep, heq]; rfl
    · right
      refine ⟨k + 1, r, u, by omega, ?_, ?_, ?_⟩
      · intro j hj
        cases j with
        | zero => exact hcb
        | succ j =>
          have := hall j (by omega)
          rw [← this]; congr 1; omega
      · rw [← hat]; congr 1; omega
      · rw [hstep, heq, idleTicks_append]
  | some cb =>
    obtain ⟨r, u⟩ := cb
    right
    refine ⟨0, r, u, by omega, fun j hj => absurd hj (Nat.not_lt_zero j), hcb, ?_⟩
    rw [hloop, hcb]
    simp [doWorkCallback,
      pollWhile_of_complete env h _ 1 _ (callback_complete r u ctx), idleTicks]

theorem maxTicks_of_pos (N : Nat) (h1 : 0 < N) (h2 : N < UINT_RANGE) : maxTicks N = N := by
  unfold maxTicks
  unfold UINT_RANGE at *
  omega

/-! ## Every call takes one of the return paths -/

theorem region_resolve (scope : String) :
    ((if strncmp scope.data CHINA_DPS_IDSCOPE_PREFIX.data (strlen CHINA_DPS_IDSCOPE_PREFIX) = 0
        then some (CHINA_DPS_ENDPOINT, true)
      else if strncmp scope.data GLOBAL_DPS_IDSCOPE_PREFIX.data
          (strlen GLOBAL_DPS_IDSCOPE_PREFIX) = 0
        then some (GLOBAL_DPS_ENDPOINT, false)
      else none) = none ∧
      ¬ CHINA_DPS_IDSCOPE_PREFIX.data <+: scope.data ∧
      ¬ GLOBAL_DPS_IDSCOPE_PREFIX.data <+: scope.data) ∨
    (∃ host china,
      (if strncmp scope.data CHINA_DPS_IDSCOPE_PREFIX.data (strlen CHINA_DPS_IDSCOPE_PREFIX) = 0
        then some (CHINA_DPS_ENDPOINT, true)
      else if strncmp scope.data GLOBAL_DPS_IDSCOPE_PREFIX.data
          (strlen GLOBAL_DPS_IDSCOPE_PREFIX) = 0
        then some (GLOBAL_DPS_ENDPOINT, false)
      else none) = some (host, china) ∧ Region scope host china) := by
  have hcn := strncmp_eq_zero_iff CHINA_DPS_IDSCOPE_PREFIX.data (by decide) scope.data
  have hne := strncmp_eq_zero_iff GLOBAL_DPS_IDSCOPE_PREFIX.data (by decide) scope.data
  simp only [strlen, hcn, hne]
  by_cases h1 : CHINA_DPS_IDSCOPE_PREFIX.data <+: scope.data
  · right
    exact ⟨_, _, if_pos h1, Or.inl ⟨h1, rfl, rfl⟩⟩
  · by_cases h2 : GLOBAL_DPS_IDSCOPE_PREFIX.data <+: scope.data
    · right
      refine ⟨_, _, ?_, Or.inr ⟨h1, h2, rfl, rfl⟩⟩
      rw [if_neg h1, if_pos h2]
    · left
      refine ⟨?_, h1, h2⟩
      rw [if_neg h1, if_neg h2]

theorem runShape_exists (env : Env) (scope : String) (timeout : Nat)
    (handle : Option (Option HubHandle)) :
    ∃ run, IoTHubDeviceClient_LL_CreateWithAzureSphereDeviceAuthProvisioningV2 env (some scope)
        timeout handle = some run ∧ RunShape env scope timeout handle run := by
  refine ⟨_, rfl, ?_⟩
  simp only []
  rcases region_resolve scope with ⟨hreg, h1, h2⟩ | ⟨host, china, hreg, hR⟩
  · rw [hreg]
    exact RunShape.badPrefix handle h1 h2
  rw [hreg]
  simp only []
  cases handle with
  | none => exact RunShape.nullHandle host china hR
  | some h0 =>
  simp only [Option.isNone_some, Bool.false_eq_true, if_false]
  by_cases hn1 : env.Networking_IsNetworkingReady.1 < 0
  · simp only [hn1, if_true]
    exact RunShape.networkFailed host china h0 hR hn1
  simp only [hn1, if_false]
  cases hn2 : env.Networking_IsNetworkingReady.2 with
  | false =>
    simp only [Bool.not_false, if_true]
    exact RunShape.networkNotReady host china h0 hR hn1 hn2
  | true =>
  simp only [Bool.not_true, Bool.false_eq_true, if_false]
  by_cases hd1 : env.Application_IsDeviceAuthReady.1 < 0
  · simp only [hd1, if_true]
    exact RunShape.deviceAuthFailed host china h0 hR hn1 hn2 hd1
  simp only [hd1, if_false]
  cases hd2 : env.Application_IsDeviceAuthReady.2 with
  | false =>
    simp only [Bool.not_false, if_true]
    exact RunShape.deviceAuthNotReady host china h0 hR hn1 hn2 hd1 hd2
  | true =>
  simp only [Bool.not_true, Bool.false_eq_true, if_false]
  by_cases hs : env.prov_dev_security_init = 0
  swap
  · simp only [ne_eq, hs, not_false_eq_true, if_true]
    exact RunShape.securityInitFailed host china h0 hR hn1 hn2 hd1 hd2 hs
  simp only [ne_eq, hs, not_true_eq_false, if_false]
  have hready : Ready env := ⟨hn1, hn2, hd1, hd2, hs⟩
  cases hc : env.Prov_Device_LL_Create host scope with
  | none =>
    simp only []
    exact RunShape.createFailed host china h0 hR hready hc
  | some h =>
  simp only []
  by_cases he1 : env.Prov_Device_LL_SetOption h "SetDeviceId" (.deviceId 1) = .OK
  swap
  · simp only [ne_eq, he1, not_false_eq_true, if_true]
    exact RunShape.deviceIdFailed host china h0 h _ hR hready hc rfl he1
  simp only [ne_eq, he1, not_true_eq_false, if_false]
  by_cases he2 : china = true ∧
      env.Prov_Device_LL_SetOption h env.OPTION_TRUSTED_CERT (.cert digiCertGlobalRootCA) ≠ .OK
  · obtain ⟨hch, he2⟩ := he2
    subst hch
    simp only [ne_eq, he2, not_false_eq_true, decide_True, Bool.and_self, if_true]
    exact RunShape.trustedCertFailed host h0 h _ hR hready hc he1 rfl he2
  have hconf : Configured env scope host china h :=
    ⟨hR, hready, hc, he1, fun hch => by
      by_contra hne
      exact he2 ⟨hch, hne⟩⟩
  have hcond : (china && decide (¬ env.Prov_Device_LL_SetOption h env.OPTION_TRUSTED_CERT
      (.cert digiCertGlobalRootCA) = .OK)) = false := by
    cases hch : china with
    | false => rfl
    | true =>
      have := hconf.2.2.2.2 hch
      simp [this]
  simp only [hcond, Bool.false_eq_true, if_false]
  have hsetup : (if china = true then
        [Event.Networking_IsNetworkingReady] ++ [Event.Application_IsDeviceAuthReady] ++
          [Event.prov_dev_security_init] ++ [Event.Prov_Device_LL_Create host scope (some h)] ++
          [Event.Prov_Device_LL_SetOption h "SetDeviceId" (.deviceId 1) .OK] ++
          [Event.Prov_Device_LL_SetOption h env.OPTION_TRUSTED_CERT (.cert digiCertGlobalRootCA)
            (env.Prov_Device_LL_SetOption h env.OPTION_TRUSTED_CERT (.cert digiCertGlobalRootCA))]
      else
        [Event.Networking_IsNetworkingReady] ++ [Event.Application_IsDeviceAuthReady] ++
          [Event.prov_dev_security_init] ++ [Event.Prov_Device_LL_Create host scope (some h)] ++
          [Event.Prov_Device_LL_SetOption h "SetDeviceId" (.deviceId 1) .OK])
      = setupTrace env scope host china h := by
    cases hch : china with
    | false => rfl
    | true =>
      have := hconf.2.2.2.2 hch
      simp [setupTrace, this]
  rw [hsetup]
  by_cases he3 : env.Prov_Device_LL_Register_Device h = .OK
  swap
  · simp only [he3, not_false_eq_true, if_true]
    have key := @RunShape.registerFailed env scope timeout host china h0 h _ hconf rfl he3
    simpa using key
  simp only [he3, not_true_eq_false, if_false]
  rcases pollLoop_spec env h (timeout % UINT_RANGE / PROV_CHECK_LOOP)
      freshContext rfl with ⟨hall, heq⟩ | ⟨k, r, u, hk, hall, hat, heq⟩
  · rw [heq]
    simp only [Bool.not_false, if_true]
    have key := @RunShape.timedOut env scope timeout host china h0 h hconf he3 hall
    simpa using key
  rw [heq]
  simp only [callback_complete, callback_error_code, Bool.not_true, Bool.false_eq_true, if_false]
  have hfire : Fires env timeout h k r u := ⟨he3, hk, hall, hat⟩
  by_cases hr : r = .OK
  swap
  · simp only [hr, not_false_eq_true, if_true]
    have key := RunShape.registrationFailed host china h0 h k r u hconf hfire hr
    simpa [polledTrace] using key
  subst hr
  simp only [not_true_eq_false, if_false, callback_ok_uri]
  cases hh : env.IoTHubDeviceClient_LL_CreateWithAzureSphereFromDeviceAuth (some u) with
  | none =>
    simp only []
    have key := RunShape.hubCreateFailed host china h0 h k u hconf hfire hh
    simpa [polledTrace] using key
  | some hub =>
  simp only []
  by_cases he4 : env.IoTHubDeviceClient_LL_SetOption hub "SetDeviceId" (.deviceId 1) = .OK
  swap
  · simp only [ne_eq, he4, not_false_eq_true, if_true]
    have key := RunShape.hubDeviceIdFailed host china h0 h k u hub _ hconf hfire hh rfl he4
    simpa [polledTrace] using key
  simp only [ne_eq, he4, not_true_eq_false, if_false]
  have hchina := callback_ok_china u
  by_cases hcn : CHINA_IOTHUB_SUFFIX.data <:+: u.data
  · have hflag := hchina.mpr hcn
    simp only [hflag, Bool.true_and, if_true, decide_eq_true_eq]
    by_cases he5 : env.IoTHubDeviceClient_LL_SetOption hub env.OPTION_TRUSTED_CERT
        (.cert digiCertGlobalRootCA) = .OK
    · simp only [he5, not_true_eq_false, if_false]
      have key := RunShape.provisionedChina host china h0 h k u hub hconf hfire hh he4 hcn he5
      simpa [polledTrace] using key
    · simp only [he5, not_false_eq_true, if_true]
      have key := RunShape.hubTrustedCertFailed host china h0 h k u hub _ hconf hfire hh he4 hcn
        rfl he5
      simpa [polledTrace] using key
  · have hflag : (register_device_callback .OK u freshContext).is_china_iothub
        = false := by
      cases hv : (register_device_callback .OK u freshContext).is_china_iothub with
      | false => rfl
      | true => exact absurd (hchina.mp hv) hcn
    simp only [hflag, Bool.false_and, Bool.false_eq_true, if_false]
    have key := RunShape.provisioned host china h0 h k u hub hconf hfire hh he4 hcn
    simpa [polledTrace] using key

/-! ## Facts about traces -/

theorem region_unique {scope host host1 : String} {china china1 : Bool}
    (h : Region scope host china) (h1 : Region scope host1 china1) :
    host1 = host ∧ china1 = china := by
  rcases h with ⟨a, b, c⟩ | ⟨a, _, b, c⟩ <;> rcases h1 with ⟨a1, b1, c1⟩ | ⟨a1, _, b1, c1⟩
  · exact ⟨b1.trans b.symm, c1.trans c.symm⟩
  · exact absurd a a1
  · exact absurd a1 a
  · exact ⟨b1.trans b.symm, c1.trans c.symm⟩

theorem configured_unique {env : Env} {scope host host1 : String} {china china1 : Bool}
    {h h1 : ProvHandle} (hc : Configured env scope host china h)
    (hc1 : Configured env scope host1 china1 h1) : host1 = host ∧ china1 = china ∧ h1 = h := by
  obtain ⟨e1, e2⟩ := region_unique hc.1 hc1.1
  subst e1 e2
  refine ⟨rfl, rfl, ?_⟩
  have := hc1.2.2.1
  rw [hc.2.2.1] at this
  exact (Option.some.inj this).symm

theorem mem_idleTicks {h : ProvHandle} {k : Nat} {e : Event} (he : e ∈ idleTicks h k) :
    e = Event.Prov_Device_LL_DoWork h none ∨ e = Event.msleep PROV_CHECK_LOOP := by
  induction k with
  | zero => simp [idleTicks] at he
  | succ k ih =>
    simp only [idleTicks, List.mem_cons] at he
    rcases he with he | he | he
    · exact Or.inl he
    · exact Or.inr he
    · exact ih he

theorem countP_isDoWork_idleTicks (h : ProvHandle) (k : Nat) :
    (idleTicks h k).countP Event.isDoWork = k := by
  induction k with
  | zero => rfl
  | succ k ih => simp [idleTicks, Event.isDoWork, ih]

theorem countP_isDoWork_setupTrace (env : Env) (scope host : String) (china : Bool)
    (h : ProvHandle) : (setupTrace env scope host china h).countP Event.isDoWork = 0 := by
  cases china <;> rfl

theorem maxTicks_of_timeout (timeout : Nat) (h1 : 100 ≤ timeout) (h2 : timeout < UINT_RANGE) :
    maxTicks (timeout % UINT_RANGE / PROV_CHECK_LOOP) = timeout / 100 := by
  rw [Nat.mod_eq_of_lt h2]
  have hN : 0 < timeout / 100 := Nat.div_pos h1 (by decide)
  have hN2 : timeout / 100 < UINT_RANGE := lt_of_le_of_lt (Nat.div_le_self _ _) h2
  exact maxTicks_of_pos _ hN hN2

theorem mem_idleTicks_iff (h : ProvHandle) (k : Nat) (e : Event) :
    e ∈ idleTicks h k ↔
      k ≠ 0 ∧ (e = Event.Prov_Device_LL_DoWork h none ∨ e = Event.msleep PROV_CHECK_LOOP) := by
  constructor
  · intro he
    refine ⟨?_, mem_idleTicks he⟩
    rintro rfl
    simp [idleTicks] at he
  · rintro ⟨hk, he⟩
    cases k with
    | zero => exact absurd rfl hk
    | succ k =>
      simp only [idleTicks, List.mem_cons]
      rcases he with he | he
      · exact Or.inl he
      · exact Or.inr (Or.inl he)

theorem specRegionResolver_of_region {scope host : String} {china : Bool}
    (h : Region scope host china) : specRegionResolver scope = some host := by
  unfold specRegionResolver
  rcases h with ⟨a, b, _⟩ | ⟨a, a1, b, _⟩
  · change "0cn".data <+: scope.data at a
    rw [if_pos a, b]; rfl
  · change ¬ "0cn".data <+: scope.data at a
    change "0ne".data <+: scope.data at a1
    rw [if_neg a, if_pos a1, b]; rfl

theorem specRegionResolver_of_bad {scope : String}
    (a : ¬ CHINA_DPS_IDSCOPE_PREFIX.data <+: scope.data)
    (b : ¬ GLOBAL_DPS_IDSCOPE_PREFIX.data <+: scope.data) : specRegionResolver scope = none := by
  unfold specRegionResolver
  change ¬ "0cn".data <+: scope.data at a
  change ¬ "0ne".data <+: scope.data at b
  rw [if_neg a, if_neg b]

theorem count_idleTicks_eq_zero (h : ProvHandle) (k : Nat) (e : Event)
    (h1 : e ≠ Event.Prov_Device_LL_DoWork h none) (h2 : e ≠ Event.msleep PROV_CHECK_LOOP) :
    (idleTicks h k).count e = 0 := by
  apply List.count_eq_zero_of_not_mem
  intro hmem
  rcases mem_idleTicks hmem with he | he
  · exact h1 he
  · exact h2 he

theorem count_deinit_setupTrace (env : Env) (scope host : String) (china : Bool)
    (h : ProvHandle) :
    (setupTrace env scope host china h).count Event.prov_dev_security_deinit = 0 := by
  cases china <;> rfl

theorem count_destroy_setupTrace (env : Env) (scope host : String) (china : Bool)
    (h h1 : ProvHandle) :
    (setupTrace env scope host china h).count (Event.Prov_Device_LL_Destroy h1) = 0 := by
  cases china <;> rfl

theorem init_mem_setupTrace (env : Env) (scope host : String) (china : Bool) (h : ProvHandle) :
    Event.prov_dev_security_init ∈ setupTrace env scope host china h := by
  cases china <;> simp [setupTrace]

theorem deinit_not_mem_setupTrace (env : Env) (scope host : String) (china : Bool)
    (h : ProvHandle) : Event.prov_dev_security_deinit ∉ setupTrace env scope host china h := by
  cases china <;> simp [setupTrace]

theorem create_mem_setupTrace {env : Env} {scope host uri s : String} {china : Bool}
    {h h1 : ProvHandle}
    (hmem : Event.Prov_Device_LL_Create uri s (some h1) ∈ setupTrace env scope host china h) :
    h1 = h := by
  cases china <;> simp [setupTrace] at hmem <;> exact hmem.2.2

/-- When the DPS client is configured, the registration is accepted and the
callback is not invoked within the tick budget, the call takes the time-out
path. -/
theorem run_of_idle (env : Env) (scope host : String) (china : Bool)
    (h : ProvHandle) (timeout : Nat) (h0 : Option HubHandle)
    (hconf : Configured env scope host china h)
    (hreg : env.Prov_Device_LL_Register_Device h = .OK)
    (hidle : ∀ j, j < maxTicks (timeout % UINT_RANGE / PROV_CHECK_LOOP) →
      env.Prov_Device_LL_DoWork h j = none) :
    IoTHubDeviceClient_LL_CreateWithAzureSphereDeviceAuthProvisioningV2 env (some scope)
        timeout (some h0) =
      some ⟨⟨.PROV_DEVICE_ERROR, some .TIMEOUT, none⟩, some h0,
        setupTrace env scope host china h ++ [.Prov_Device_LL_Register_Device h .OK] ++
          idleTicks h (maxTicks (timeout % UINT_RANGE / PROV_CHECK_LOOP)) ++
          [.Prov_Device_LL_Destroy h, .prov_dev_security_deinit]⟩ := by
  obtain ⟨run, hrun, hshape⟩ := runShape_exists env scope timeout (some h0)
  rw [hrun]
  have hready := hconf.2.1
  obtain ⟨hn1, hn2, hd1, hd2, hs⟩ := hready
  cases hshape with
  | badPrefix _ a b =>
    rcases hconf.1 with ⟨c, _⟩ | ⟨_, c, _⟩
    · exact absurd c a
    · exact absurd c b
  | networkFailed _ _ _ _ a => exact absurd a hn1
  | networkNotReady _ _ _ _ _ a => rw [hn2] at a; cases a
  | deviceAuthFailed _ _ _ _ _ _ a => exact absurd a hd1
  | deviceAuthNotReady _ _ _ _ _ _ _ a => rw [hd2] at a; cases a
  | securityInitFailed _ _ _ _ _ _ _ _ a => exact absurd hs a
  | createFailed host1 china1 _ hR _ a =>
    obtain ⟨e1, e2⟩ := region_unique hconf.1 hR
    subst e1 e2
    rw [hconf.2.2.1] at a; cases a
  | deviceIdFailed host1 china1 _ h1 c hR _ a b d =>
    obtain ⟨e1, e2⟩ := region_unique hconf.1 hR
    subst e1 e2
    rw [hconf.2.2.1] at a
    cases a
    rw [hconf.2.2.2.1] at b
    exact absurd b.symm d
  | trustedCertFailed host1 _ h1 c hR _ a _ b d =>
    obtain ⟨e1, e2⟩ := region_unique hconf.1 hR
    subst e1 e2
    rw [hconf.2.2.1] at a
    cases a
    rw [hconf.2.2.2.2 rfl] at b
    exact absurd b.symm d
  | registerFailed host1 china1 _ h1 c hc1 a b =>
    obtain ⟨e1, e2, e3⟩ := configured_unique hconf hc1
    subst e1 e2 e3
    rw [hreg] at a
    exact absurd a.symm b
  | timedOut host1 china1 _ h1 hc1 _ _ =>
    obtain ⟨e1, e2, e3⟩ := configured_unique hconf hc1
    subst e1 e2 e3
    rfl
  | registrationFailed host1 china1 _ h1 k r u hc1 hf _ =>
    obtain ⟨e1, e2, e3⟩ := configured_unique hconf hc1
    subst e1 e2 e3
    have := hidle k hf.2.1
    rw [hf.2.2.2] at this; cases this
  | hubCreateFailed host1 china1 _ h1 k u hc1 hf _ =>
    obtain ⟨e1, e2, e3⟩ := configured_unique hconf hc1
    subst e1 e2 e3
    have := hidle k hf.2.1
    rw [hf.2.2.2] at this; cases this
  | hubDeviceIdFailed host1 china1 _ h1 k u hub c hc1 hf _ _ _ =>
    obtain ⟨e1, e2, e3⟩ := configured_unique hconf hc1
    subst e1 e2 e3
    have := hidle k hf.2.1
    rw [hf.2.2.2] at this; cases this
  | hubTrustedCertFailed host1 china1 _ h1 k u hub c hc1 hf _ _ _ _ _ =>
    obtain ⟨e1, e2, e3⟩ := configured_unique hconf hc1
    subst e1 e2 e3
    have := hidle k hf.2.1
    rw [hf.2.2.2] at this; cases this
  | provisionedChina host1 china1 _ h1 k u hub hc1 hf _ _ _ _ =>
    obtain ⟨e1, e2, e3⟩ := configured_unique hconf hc1
    subst e1 e2 e3
    have := hidle k hf.2.1
    rw [hf.2.2.2] at this; cases this
  | provisioned host1 china1 _ h1 k u hub hc1 hf _ _ _ =>
    obtain ⟨e1, e2, e3⟩ := configured_unique hconf hc1
    subst e1 e2 e3
    have := hidle k hf.2.1
    rw [hf.2.2.2] at this; cases this

theorem sampleEnv_configured (doWork : Nat → Option (PROV_DEVICE_RESULT × String))
    (hubOption : IOTHUB_CLIENT_RESULT) :
    Configured (sampleEnv doWork hubOption) "0ne00ABCDEF" GLOBAL_DPS_ENDPOINT false 1 :=
  ⟨Or.inr ⟨by decide, by decide, rfl, rfl⟩, ⟨Int.lt_irrefl 0, rfl, Int.lt_irrefl 0, rfl, rfl⟩, rfl, rfl,
    fun h => by cases h⟩

/-! ## The claims -/

set_option maxHeartbeats 4000000

/-- C1: with a timeout of at least 100 ms, when the scope prefix is valid, both
probes report ready, attest init, DPS client creation, the option settings and
`Prov_Device_LL_Register_Device` succeed (so the handle pointer is not `NULL`,
the probes being reached) and the callback is not invoked during the first
`timeout / 100` do-work ticks, the call returns
`PROV_DEVICE_ERROR` / `PROV_DEVICE_RESULT_TIMEOUT` after exactly `timeout / 100`
do-work ticks, creates no hub client and leaves `*handle` as it was. -/
theorem C1_timeout_after_budget (env : Env) (scope host : String) (china : Bool)
    (h : ProvHandle) (timeout : Nat) (h0 : Option HubHandle)
    (ht : 100 ≤ timeout) (hu : timeout < UINT_RANGE)
    (hconf : Configured env scope host china h)
    (hreg : env.Prov_Device_LL_Register_Device h = .OK)
    (hidle : ∀ j, j < timeout / 100 → env.Prov_Device_LL_DoWork h j = none) :
    ∃ run, IoTHubDeviceClient_LL_CreateWithAzureSphereDeviceAuthProvisioningV2 env (some scope)
        timeout (some h0) = some run ∧
      run.ret.result = .PROV_DEVICE_ERROR ∧
      run.ret.prov_device_error = some .TIMEOUT ∧
      run.trace.countP Event.isDoWork = timeout / 100 ∧
      (∀ u r, Event.IoTHubDeviceClient_LL_CreateWithAzureSphereFromDeviceAuth u r ∉ run.trace) ∧
      run.handle = some h0 := by
  have hmax := maxTicks_of_timeout timeout ht hu
  refine ⟨_, run_of_idle env scope host china h timeout h0 hconf hreg (hmax ▸ hidle), rfl, rfl,
    ?_, ?_, rfl⟩
  · simp [List.countP_append, countP_isDoWork_idleTicks, countP_isDoWork_setupTrace, hmax,
      Event.isDoWork]
  · intro u r hmem
    simp only [List.mem_append, List.mem_cons, List.mem_singleton, setupTrace] at hmem
    rcases hmem with ((hmem | hmem) | hmem) | hmem
    · cases china <;> simp at hmem
    · simp at hmem
    · rcases mem_idleTicks hmem with e | e <;> cases e
    · simp at hmem

/-- Scenario 5 of the spec: timeout 500, the callback is never invoked; five ticks. -/
theorem C1_timeout_after_budget_witness :
    ∃ run, IoTHubDeviceClient_LL_CreateWithAzureSphereDeviceAuthProvisioningV2
        (sampleEnv neverFires .OK) (some "0ne00ABCDEF") 500 (some none) = some run ∧
      run.ret.result = .PROV_DEVICE_ERROR ∧
      run.ret.prov_device_error = some .TIMEOUT ∧
      run.trace.countP Event.isDoWork = 500 / 100 ∧
      (∀ u r, Event.IoTHubDeviceClient_LL_CreateWithAzureSphereFromDeviceAuth u r ∉ run.trace) ∧
      run.handle = some none :=
  C1_timeout_after_budget (sampleEnv neverFires .OK) "0ne00ABCDEF" GLOBAL_DPS_ENDPOINT false 1
    500 none (by decide) (by decide) (sampleEnv_configured neverFires .OK) rfl (fun _ _ => rfl)

/-- C2: the region resolver at the head of the function agrees with the spec's
rule table for every non-null scope string.  When the table selects a host, the
scope is resolved and not rejected: with a non-null handle pointer the result
is not `INVALID_PARAM` and the network probe is called, when moreover the
preflight and attest init succeed `Prov_Device_LL_Create` is called with that
host and with the scope passed verbatim, and every `Prov_Device_LL_Create` of
the run has that host and that scope.  When the table rejects the scope, the
call returns `INVALID_PARAM` without having called any collaborator (no probe,
no attest init, no client creation). -/
theorem C2_region_resolver (env : Env) (scope : String) (timeout : Nat)
    (handle : Option (Option HubHandle)) :
    ∃ run, IoTHubDeviceClient_LL_CreateWithAzureSphereDeviceAuthProvisioningV2 env (some scope)
        timeout handle = some run ∧
      match specRegionResolver scope with
      | some host =>
          (∀ uri s result,
            Event.Prov_Device_LL_Create uri s result ∈ run.trace → uri = host ∧ s = scope) ∧
          (handle ≠ none → run.ret.result ≠ .INVALID_PARAM ∧
            run.trace.head? = some .Networking_IsNetworkingReady) ∧
          (handle ≠ none → Ready env →
            Event.Prov_Device_LL_Create host scope (env.Prov_Device_LL_Create host scope)
              ∈ run.trace)
      | none => run.ret.result = .INVALID_PARAM ∧ run.trace = [] := by
  obtain ⟨run, hrun, hshape⟩ := runShape_exists env scope timeout handle
  refine ⟨run, hrun, ?_⟩
  cases hshape with
  | badPrefix _ a b => rw [specRegionResolver_of_bad a b]; exact ⟨rfl, rfl⟩
  | nullHandle host china hR =>
    rw [specRegionResolver_of_region hR]
    refine ⟨?_, fun h => absurd rfl h, fun h => absurd rfl h⟩
    intro uri s result hmem; simp at hmem
  | networkFailed host china _ hR a =>
    rw [specRegionResolver_of_region hR]
    refine ⟨?_, fun _ => ⟨by simp, rfl⟩, fun _ hr => absurd a hr.1⟩
    intro uri s result hmem; simp at hmem
  | networkNotReady host china _ hR _ a =>
    rw [specRegionResolver_of_region hR]
    refine ⟨?_, fun _ => ⟨by simp, rfl⟩, fun _ hr => ?_⟩
    · intro uri s result hmem; simp at hmem
    · rw [hr.2.1] at a; cases a
  | deviceAuthFailed host china _ hR _ _ a =>
    rw [specRegionResolver_of_region hR]
    refine ⟨?_, fun _ => ⟨by simp, rfl⟩, fun _ hr => absurd a hr.2.2.1⟩
    intro uri s result hmem; simp at hmem
  | deviceAuthNotReady host china _ hR _ _ _ a =>
    rw [specRegionResolver_of_region hR]
    refine ⟨?_, fun _ => ⟨by simp, rfl⟩, fun _ hr => ?_⟩
    · intro uri s result hmem; simp at hmem
    · rw [hr.2.2.2.1] at a; cases a
  | securityInitFailed host china _ hR _ _ _ _ a =>
    rw [specRegionResolver_of_region hR]
    refine ⟨?_, fun _ => ⟨by simp, rfl⟩, fun _ hr => absurd hr.2.2.2.2 a⟩
    intro uri s result hmem; simp at hmem
  | createFailed host china _ hR _ hc =>
    rw [specRegionResolver_of_region hR]
    refine ⟨?_, fun _ => ⟨by simp, rfl⟩, fun _ _ => by simp [hc]⟩
    intro uri s result hmem
    simp at hmem; exact ⟨hmem.1, hmem.2.1⟩
  | deviceIdFailed host china _ h c hR _ hc =>
    rw [specRegionResolver_of_region hR]
    refine ⟨?_, fun _ => ⟨by simp, rfl⟩, fun _ _ => by simp [hc]⟩
    intro uri s result hmem
    simp at hmem; exact ⟨hmem.1, hmem.2.1⟩
  | trustedCertFailed host _ h c hR _ hc =>
    rw [specRegionResolver_of_region hR]
    refine ⟨?_, fun _ => ⟨by simp, rfl⟩, fun _ _ => by simp [hc]⟩
    intro uri s result hmem
    simp at hmem; exact ⟨hmem.1, hmem.2.1⟩
  | registerFailed host china _ h c hc =>
    rw [specRegionResolver_of_region hc.1]
    refine ⟨?_, fun _ => ⟨by simp, by simp [setupTrace]⟩,
      fun _ _ => by simp [setupTrace, hc.2.2.1]⟩
    intro uri s result hmem
    cases china <;> simp [setupTrace] at hmem <;> exact ⟨hmem.1, hmem.2.1⟩
  | timedOut host china _ h hc =>
    rw [specRegionResolver_of_region hc.1]
    refine ⟨?_, fun _ => ⟨by simp, by simp [setupTrace]⟩,
      fun _ _ => by simp [setupTrace, hc.2.2.1]⟩
    intro uri s result hmem
    cases china <;> simp [setupTrace, mem_idleTicks_iff] at hmem <;> exact ⟨hmem.1, hmem.2.1⟩
  | registrationFailed host china _ h k r u hc =>
    rw [specRegionResolver_of_region hc.1]
    refine ⟨?_, fun _ => ⟨by simp, by simp [polledTrace, setupTrace]⟩,
      fun _ _ => by simp [polledTrace, setupTrace, hc.2.2.1]⟩
    intro uri s result hmem
    cases china <;> simp [polledTrace, setupTrace, mem_idleTicks_iff] at hmem <;>
      exact ⟨hmem.1, hmem.2.1⟩
  | hubCreateFailed host china _ h k u hc =>
    rw [specRegionResolver_of_region hc.1]
    refine ⟨?_, fun _ => ⟨by simp, by simp [polledTrace, setupTrace]⟩,
      fun _ _ => by simp [polledTrace, setupTrace, hc.2.2.1]⟩
    intro uri s result hmem
    cases china <;> simp [polledTrace, setupTrace, mem_idleTicks_iff] at hmem <;>
      exact ⟨hmem.1, hmem.2.1⟩
  | hubDeviceIdFailed host china _ h k u hub c hc =>
    rw [specRegionResolver_of_region hc.1]
    refine ⟨?_, fun _ => ⟨by simp, by simp [polledTrace, setupTrace]⟩,
      fun _ _ => by simp [polledTrace, setupTrace, hc.2.2.1]⟩
    intro uri s result hmem
    cases china <;> simp [polledTrace, setupTrace, mem_idleTicks_iff] at hmem <;>
      exact ⟨hmem.1, hmem.2.1⟩
  | hubTrustedCertFailed host china _ h k u hub c hc =>
    rw [specRegionResolver_of_region hc.1]
    refine ⟨?_, fun _ => ⟨by simp, by simp [polledTrace, setupTrace]⟩,
      fun _ _ => by simp [polledTrace, setupTrace, hc.2.2.1]⟩
    intro uri s result hmem
    cases china <;> simp [polledTrace, setupTrace, mem_idleTicks_iff] at hmem <;>
      exact ⟨hmem.1, hmem.2.1⟩
  | provisionedChina host china _ h k u hub hc =>
    rw [specRegionResolver_of_region hc.1]
    refine ⟨?_, fun _ => ⟨by simp, by simp [polledTrace, setupTrace]⟩,
      fun _ _ => by simp [polledTrace, setupTrace, hc.2.2.1]⟩
    intro uri s result hmem
    cases china <;> simp [polledTrace, setupTrace, mem_idleTicks_iff] at hmem <;>
      exact ⟨hmem.1, hmem.2.1⟩
  | provisioned host china _ h k u hub hc =>
    rw [specRegionResolver_of_region hc.1]
    refine ⟨?_, fun _ => ⟨by simp, by simp [polledTrace, setupTrace]⟩,
      fun _ _ => by simp [polledTrace, setupTrace, hc.2.2.1]⟩
    intro uri s result hmem
    cases china <;> simp [polledTrace, setupTrace, mem_idleTicks_iff] at hmem <;>
      exact ⟨hmem.1, hmem.2.1⟩

/-- The three rows of the table: the scope `0c`, shorter than three characters,
is rejected before any call; `0cn00XYZ` creates the DPS client at the `.cn`
host and `0ne00ABCDEF` at the `.net` host, each with the scope verbatim. -/
theorem C2_region_resolver_witness :
    (∃ run, IoTHubDeviceClient_LL_CreateWithAzureSphereDeviceAuthProvisioningV2
        (sampleEnv neverFires .OK) (some "0c") 500 (some none) = some run ∧
      run.ret.result = .INVALID_PARAM ∧ run.trace = []) ∧
    (∃ run, IoTHubDeviceClient_LL_CreateWithAzureSphereDeviceAuthProvisioningV2
        (sampleEnv neverFires .OK) (some "0cn00XYZ") 500 (some none) = some run ∧
      run.ret.result ≠ .INVALID_PARAM ∧
      Event.Prov_Device_LL_Create "global.azure-devices-provisioning.cn" "0cn00XYZ" (some 1)
        ∈ run.trace) ∧
    (∃ run, IoTHubDeviceClient_LL_CreateWithAzureSphereDeviceAuthProvisioningV2
        (sampleEnv neverFires .OK) (some "0ne00ABCDEF") 500 (some none) = some run ∧
      run.ret.result ≠ .INVALID_PARAM ∧
      Event.Prov_Device_LL_Create "global.azure-devices-provisioning.net" "0ne00ABCDEF" (some 1)
        ∈ run.trace) :=
  ⟨match C2_region_resolver (sampleEnv neverFires .OK) "0c" 500 (some none) with
    | ⟨run, hrun, hres⟩ => ⟨run, hrun, hres⟩,
   match C2_region_resolver (sampleEnv neverFires .OK) "0cn00XYZ" 500 (some none) with
    | ⟨run, hrun, hres⟩ =>
      ⟨run, hrun, (hres.2.1 (by simp)).1,
        hres.2.2 (by simp) ⟨Int.lt_irrefl 0, rfl, Int.lt_irrefl 0, rfl, rfl⟩⟩,
   match C2_region_resolver (sampleEnv neverFires .OK) "0ne00ABCDEF" 500 (some none) with
    | ⟨run, hrun, hres⟩ =>
      ⟨run, hrun, (hres.2.1 (by simp)).1,
        hres.2.2 (by simp) ⟨Int.lt_irrefl 0, rfl, Int.lt_irrefl 0, rfl, rfl⟩⟩⟩

/-- C3 (the code at the failing input): scope `0ne00ABCDEF`, `*handle = NULL`
before the call, the callback reports `OK` with `myhub.azure-devices.net` on the
first tick, the hub client `7` is created and its `SetOption("SetDeviceId")`
fails.  The call returns `IOTHUB_CLIENT_ERROR`, yet `*handle` holds the hub
client `7`, which was created during the run and never destroyed. -/
theorem C3_live_handle_after_hub_option_failure :
    ∃ run, IoTHubDeviceClient_LL_CreateWithAzureSphereDeviceAuthProvisioningV2
        (sampleEnv (firesAt 0 "myhub.azure-devices.net") (.other 1)) (some "0ne00ABCDEF")
        30000 (some none) = some run ∧
      run.ret.result = .IOTHUB_CLIENT_ERROR ∧
      run.ret.iothub_client_error = some (.other 1) ∧
      run.handle = some (some 7) ∧
      Event.IoTHubDeviceClient_LL_CreateWithAzureSphereFromDeviceAuth
        (some "myhub.azure-devices.net") (some 7) ∈ run.trace ∧
      Event.IoTHubDeviceClient_LL_Destroy 7 ∉ run.trace :=
  ⟨_, rfl, rfl, rfl, rfl, by decide, by decide⟩

/-- C4: the preflight gate.  For a valid scope prefix and a non-null handle
pointer the network probe is the first call.  If it fails the result is
`GENERIC_ERROR`, if it reports not-ready the result is `NETWORK_NOT_READY`, and
in both cases it is the only call made (the device-auth probe is not invoked).
Otherwise the device-auth probe is the second call; if it fails the result is
`GENERIC_ERROR`, if it reports not-ready the result is `DEVICEAUTH_NOT_READY`,
and in both cases the two probes are the only calls made: no attest init and no
DPS or hub client creation has happened. -/
theorem C4_preflight_gate (env : Env) (scope : String) (timeout : Nat) (h0 : Option HubHandle)
    (hp : CHINA_DPS_IDSCOPE_PREFIX.data <+: scope.data ∨
      GLOBAL_DPS_IDSCOPE_PREFIX.data <+: scope.data) :
    ∃ run, IoTHubDeviceClient_LL_CreateWithAzureSphereDeviceAuthProvisioningV2 env (some scope)
        timeout (some h0) = some run ∧
      run.trace.head? = some .Networking_IsNetworkingReady ∧
      (env.Networking_IsNetworkingReady.1 < 0 →
        run.ret.result = .GENERIC_ERROR ∧ run.trace = [.Networking_IsNetworkingReady]) ∧
      (¬ env.Networking_IsNetworkingReady.1 < 0 → env.Networking_IsNetworkingReady.2 = false →
        run.ret.result = .NETWORK_NOT_READY ∧ run.trace = [.Networking_IsNetworkingReady]) ∧
      (¬ env.Networking_IsNetworkingReady.1 < 0 → env.Networking_IsNetworkingReady.2 = true →
        run.trace.take 2 = [.Networking_IsNetworkingReady, .Application_IsDeviceAuthReady] ∧
        (env.Application_IsDeviceAuthReady.1 < 0 →
          run.ret.result = .GENERIC_ERROR ∧
          run.trace = [.Networking_IsNetworkingReady, .Application_IsDeviceAuthReady]) ∧
        (¬ env.Application_IsDeviceAuthReady.1 < 0 →
          env.Application_IsDeviceAuthReady.2 = false →
          run.ret.result = .DEVICEAUTH_NOT_READY ∧
          run.trace = [.Networking_IsNetworkingReady, .Application_IsDeviceAuthReady])) := by
  obtain ⟨run, hrun, hshape⟩ := runShape_exists env scope timeout (some h0)
  refine ⟨run, hrun, ?_⟩
  cases hshape with
  | badPrefix _ a b => exact absurd hp (not_or.mpr ⟨a, b⟩)
  | networkFailed _ _ _ _ a => simp [a]
  | networkNotReady _ _ _ _ a b => simp [a, b]
  | deviceAuthFailed _ _ _ _ a b c => simp [a, b, c]
  | deviceAuthNotReady _ _ _ _ a b c d => simp [a, b, c, d]
  | securityInitFailed _ _ _ _ a b c d => simp [a, b, c, d]
  | createFailed _ _ _ _ hr => obtain ⟨a, b, c, d, _⟩ := hr; simp [a, b, c, d]
  | deviceIdFailed _ _ _ _ _ _ hr => obtain ⟨a, b, c, d, _⟩ := hr; simp [a, b, c, d]
  | trustedCertFailed _ _ _ _ _ hr => obtain ⟨a, b, c, d, _⟩ := hr; simp [a, b, c, d]
  | registerFailed _ _ _ _ _ hc =>
    obtain ⟨a, b, c, d, _⟩ := hc.2.1; simp [a, b, c, d, setupTrace]
  | timedOut _ _ _ _ hc =>
    obtain ⟨a, b, c, d, _⟩ := hc.2.1; simp [a, b, c, d, setupTrace]
  | registrationFailed _ _ _ _ _ _ _ hc =>
    obtain ⟨a, b, c, d, _⟩ := hc.2.1; simp [a, b, c, d, setupTrace, polledTrace]
  | hubCreateFailed _ _ _ _ _ _ hc =>
    obtain ⟨a, b, c, d, _⟩ := hc.2.1; simp [a, b, c, d, setupTrace, polledTrace]
  | hubDeviceIdFailed _ _ _ _ _ _ _ _ hc =>
    obtain ⟨a, b, c, d, _⟩ := hc.2.1; simp [a, b, c, d, setupTrace, polledTrace]
  | hubTrustedCertFailed _ _ _ _ _ _ _ _ hc =>
    obtain ⟨a, b, c, d, _⟩ := hc.2.1; simp [a, b, c, d, setupTrace, polledTrace]
  | provisionedChina _ _ _ _ _ _ _ hc =>
    obtain ⟨a, b, c, d, _⟩ := hc.2.1; simp [a, b, c, d, setupTrace, polledTrace]
  | provisioned _ _ _ _ _ _ _ hc =>
    obtain ⟨a, b, c, d, _⟩ := hc.2.1; simp [a, b, c, d, setupTrace, polledTrace]

/-- Scenario 4 of the spec: the network probe reports not-ready. -/
theorem C4_preflight_gate_witness :
    ∃ run, IoTHubDeviceClient_LL_CreateWithAzureSphereDeviceAuthProvisioningV2
        networkDownEnv (some "0ne00ABCDEF") 30000 (some none) = some run ∧
      run.ret.result = .NETWORK_NOT_READY ∧ run.trace = [.Networking_IsNetworkingReady] :=
  match C4_preflight_gate networkDownEnv "0ne00ABCDEF" 30000 none (Or.inr (by decide)) with
  | ⟨run, hrun, _, _, hnot, _⟩ => ⟨run, hrun, hnot (Int.lt_irrefl 0) rfl⟩

/-- C5: acquire/release balance of the DPS-leg resources on every return path.
`prov_dev_security_deinit` is called exactly once when `prov_dev_security_init`
was reached and succeeded, and never otherwise.  When `Prov_Device_LL_Create`
returned a client `h`, `Prov_Device_LL_Destroy h` is called exactly once; the
attest teardown comes after it and not before it, and no operation on the DPS
client `h` follows the destroy. -/
theorem C5_acquire_release_balance (env : Env) (scope : String) (timeout : Nat)
    (handle : Option (Option HubHandle)) (run : Run)
    (hrun : IoTHubDeviceClient_LL_CreateWithAzureSphereDeviceAuthProvisioningV2 env (some scope)
      timeout handle = some run) :
    run.trace.count Event.prov_dev_security_deinit =
      (if Event.prov_dev_security_init ∈ run.trace ∧ env.prov_dev_security_init = 0
        then 1 else 0) ∧
    ∀ uri s h, Event.Prov_Device_LL_Create uri s (some h) ∈ run.trace →
      run.trace.count (Event.Prov_Device_LL_Destroy h) = 1 ∧
      ∃ pre post, run.trace = pre ++ Event.Prov_Device_LL_Destroy h :: post ∧
        Event.prov_dev_security_deinit ∉ pre ∧ Event.prov_dev_security_deinit ∈ post ∧
        ∀ e ∈ post, e.provHandle? ≠ some h := by
  obtain ⟨run1, hrun1, hshape⟩ := runShape_exists env scope timeout handle
  rw [hrun] at hrun1
  cases hrun1
  cases hshape with
  | badPrefix _ a b => simp
  | nullHandle => simp
  | networkFailed => simp
  | networkNotReady => simp
  | deviceAuthFailed => simp
  | deviceAuthNotReady => simp
  | securityInitFailed _ _ _ _ _ _ _ _ a => simp [a]
  | createFailed _ _ _ _ hr => simp [hr.2.2.2.2]
  | deviceIdFailed host _ _ h c _ hr _ _ _ =>
    refine ⟨by simp [hr.2.2.2.2], ?_⟩
    intro uri s h1 hmem
    have hh : h1 = h := by simp at hmem; exact hmem.2.2
    subst hh
    refine ⟨by simp,
      [.Networking_IsNetworkingReady, .Application_IsDeviceAuthReady, .prov_dev_security_init,
        .Prov_Device_LL_Create host scope (some h1),
        .Prov_Device_LL_SetOption h1 "SetDeviceId" (.deviceId 1) c],
      [.prov_dev_security_deinit], rfl, ?_, by simp, ?_⟩
    · simp
    · simp [Event.provHandle?]
  | trustedCertFailed host _ h c _ hr _ _ _ _ =>
    refine ⟨by simp [hr.2.2.2.2], ?_⟩
    intro uri s h1 hmem
    have hh : h1 = h := by simp at hmem; exact hmem.2.2
    subst hh
    refine ⟨by simp,
      [.Networking_IsNetworkingReady, .Application_IsDeviceAuthReady, .prov_dev_security_init,
        .Prov_Device_LL_Create host scope (some h1),
        .Prov_Device_LL_SetOption h1 "SetDeviceId" (.deviceId 1) .OK,
        .Prov_Device_LL_SetOption h1 env.OPTION_TRUSTED_CERT (.cert digiCertGlobalRootCA) c],
      [.prov_dev_security_deinit], rfl, ?_, by simp, ?_⟩
    · simp
    · simp [Event.provHandle?]
  | registerFailed host china _ h c hc _ _ =>
    refine ⟨?_, ?_⟩
    · simp [List.count_append, count_deinit_setupTrace, init_mem_setupTrace, hc.2.1.2.2.2.2]
    intro uri s h1 hmem
    have hh : h1 = h := by
      simp only [List.mem_append] at hmem
      rcases hmem with hmem | hmem
      · exact create_mem_setupTrace hmem
      · simp at hmem
    subst hh
    refine ⟨?_, setupTrace env scope host china h1 ++ [.Prov_Device_LL_Register_Device h1 c],
      [.prov_dev_security_deinit], by simp, ?_, by simp, ?_⟩
    · simp [List.count_append, count_destroy_setupTrace]
    · simp [deinit_not_mem_setupTrace]
    · simp [Event.provHandle?]
  | timedOut host china _ h hc _ _ =>
    refine ⟨?_, ?_⟩
    · simp [List.count_append, count_deinit_setupTrace, init_mem_setupTrace, hc.2.1.2.2.2.2,
        count_idleTicks_eq_zero]
    intro uri s h1 hmem
    have hh : h1 = h := by
      simp only [List.mem_append] at hmem
      rcases hmem with ((hmem | hmem) | hmem) | hmem
      · exact create_mem_setupTrace hmem
      · simp at hmem
      · simp [mem_idleTicks_iff] at hmem
      · simp at hmem
    subst hh
    refine ⟨?_, setupTrace env scope host china h1 ++ [.Prov_Device_LL_Register_Device h1 .OK]
        ++ idleTicks h1 (maxTicks (timeout % UINT_RANGE / PROV_CHECK_LOOP)),
      [.prov_dev_security_deinit], by simp, ?_, by simp, ?_⟩
    · simp [List.count_append, count_destroy_setupTrace, count_idleTicks_eq_zero]
    · simp [deinit_not_mem_setupTrace, mem_idleTicks_iff]
    · simp [Event.provHandle?]
  | registrationFailed host china _ h k r u hc hf hr =>
    refine ⟨?_, ?_⟩
    · simp [polledTrace, List.count_append, count_deinit_setupTrace, init_mem_setupTrace,
        hc.2.1.2.2.2.2, count_idleTicks_eq_zero]
    intro uri s h1 hmem
    have hh : h1 = h := by
      simp only [polledTrace, List.mem_append] at hmem
      rcases hmem with ((((hmem | hmem) | hmem) | hmem) | hmem)
      · exact create_mem_setupTrace hmem
      · simp at hmem
      · simp [mem_idleTicks_iff] at hmem
      · simp at hmem
      · simp at hmem
    subst hh
    refine ⟨?_, setupTrace env scope host china h1 ++ [.Prov_Device_LL_Register_Device h1 .OK]
        ++ idleTicks h1 k ++ [.Prov_Device_LL_DoWork h1 (some (r, u)), .msleep PROV_CHECK_LOOP],
      [.prov_dev_security_deinit], by simp [polledTrace], ?_, by simp, ?_⟩
    · simp [polledTrace, List.count_append, count_destroy_setupTrace, count_idleTicks_eq_zero]
    · simp [deinit_not_mem_setupTrace, mem_idleTicks_iff]
    · simp [Event.provHandle?]
  | hubCreateFailed host china _ h k u hc hf _ =>
    refine ⟨?_, ?_⟩
    · simp [polledTrace, List.count_append, count_deinit_setupTrace, init_mem_setupTrace,
        hc.2.1.2.2.2.2, count_idleTicks_eq_zero]
    intro uri s h1 hmem
    have hh : h1 = h := by
      simp only [polledTrace, List.mem_append] at hmem
      rcases hmem with ((((hmem | hmem) | hmem) | hmem) | hmem)
      · exact create_mem_setupTrace hmem
      · simp at hmem
      · simp [mem_idleTicks_iff] at hmem
      · simp at hmem
      · simp at hmem
    subst hh
    refine ⟨?_, setupTrace env scope host china h1 ++ [.Prov_Device_LL_Register_Device h1 .OK]
        ++ idleTicks h1 k ++ [.Prov_Device_LL_DoWork h1 (some (.OK, u)), .msleep PROV_CHECK_LOOP],
      [.IoTHubDeviceClient_LL_CreateWithAzureSphereFromDeviceAuth (some u) none,
        .free (some u), .prov_dev_security_deinit], by simp [polledTrace], ?_, by simp, ?_⟩
    · simp [polledTrace, List.count_append, count_destroy_setupTrace, count_idleTicks_eq_zero]
    · simp [deinit_not_mem_setupTrace, mem_idleTicks_iff]
    · simp [Event.provHandle?]
  | hubDeviceIdFailed host china _ h k u hub c hc hf _ _ hne =>
    refine ⟨?_, ?_⟩
    · simp [polledTrace, List.count_append, count_deinit_setupTrace, init_mem_setupTrace,
        hc.2.1.2.2.2.2, count_idleTicks_eq_zero]
    intro uri s h1 hmem
    have hh : h1 = h := by
      simp only [polledTrace, List.mem_append] at hmem
      rcases hmem with ((((hmem | hmem) | hmem) | hmem) | hmem)
      · exact create_mem_setupTrace hmem
      · simp at hmem
      · simp [mem_idleTicks_iff] at hmem
      · simp at hmem
      · simp at hmem
    subst hh
    refine ⟨?_, setupTrace env scope host china h1 ++ [.Prov_Device_LL_Register_Device h1 .OK]
        ++ idleTicks h1 k ++ [.Prov_Device_LL_DoWork h1 (some (.OK, u)), .msleep PROV_CHECK_LOOP],
      [.IoTHubDeviceClient_LL_CreateWithAzureSphereFromDeviceAuth (some u) (some hub),
        .free (some u), .IoTHubDeviceClient_LL_SetOption hub "SetDeviceId" (.deviceId 1) c,
        .prov_dev_security_deinit], by simp [polledTrace], ?_, by simp, ?_⟩
    · simp [polledTrace, List.count_append, count_destroy_setupTrace, count_idleTicks_eq_zero]
    · simp [deinit_not_mem_setupTrace, mem_idleTicks_iff]
    · simp [Event.provHandle?]
  | hubTrustedCertFailed host china _ h k u hub c hc hf _ _ _ _ hne =>
    refine ⟨?_, ?_⟩
    · simp [polledTrace, List.count_append, count_deinit_setupTrace, init_mem_setupTrace,
        hc.2.1.2.2.2.2, count_idleTicks_eq_zero]
    intro uri s h1 hmem
    have hh : h1 = h := by
      simp only [polledTrace, List.mem_append] at hmem
      rcases hmem with ((((hmem | hmem) | hmem) | hmem) | hmem)
      · exact create_mem_setupTrace hmem
      · simp at hmem
      · simp [mem_idleTicks_iff] at hmem
      · simp at hmem
      · simp at hmem
    subst hh
    refine ⟨?_, setupTrace env scope host china h1 ++ [.Prov_Device_LL_Register_Device h1 .OK]
        ++ idleTicks h1 k ++ [.Prov_Device_LL_DoWork h1 (some (.OK, u)), .msleep PROV_CHECK_LOOP],
      [.IoTHubDeviceClient_LL_CreateWithAzureSphereFromDeviceAuth (some u) (some hub),
        .free (some u), .IoTHubDeviceClient_LL_SetOption hub "SetDeviceId" (.deviceId 1) .OK,
        .IoTHubDeviceClient_LL_SetOption hub env.OPTION_TRUSTED_CERT
          (.cert digiCertGlobalRootCA) c,
        .prov_dev_security_deinit], by simp [polledTrace], ?_, by simp, ?_⟩
    · simp [polledTrace, List.count_append, count_destroy_setupTrace, count_idleTicks_eq_zero]
    · simp [deinit_not_mem_setupTrace, mem_idleTicks_iff]
    · simp [Event.provHandle?]
  | provisionedChina host china _ h k u hub hc hf _ _ q =>
    refine ⟨?_, ?_⟩
    · simp [polledTrace, List.count_append, count_deinit_setupTrace, init_mem_setupTrace,
        hc.2.1.2.2.2.2, count_idleTicks_eq_zero]
    intro uri s h1 hmem
    have hh : h1 = h := by
      simp only [polledTrace, List.mem_append] at hmem
      rcases hmem with ((((hmem | hmem) | hmem) | hmem) | hmem)
      · exact create_mem_setupTrace hmem
      · simp at hmem
      · simp [mem_idleTicks_iff] at hmem
      · simp at hmem
      · simp at hmem
    subst hh
    refine ⟨?_, setupTrace env scope host china h1 ++ [.Prov_Device_LL_Register_Device h1 .OK]
        ++ idleTicks h1 k ++ [.Prov_Device_LL_DoWork h1 (some (.OK, u)), .msleep PROV_CHECK_LOOP],
      [.IoTHubDeviceClient_LL_CreateWithAzureSphereFromDeviceAuth (some u) (some hub),
        .free (some u), .IoTHubDeviceClient_LL_SetOption hub "SetDeviceId" (.deviceId 1) .OK,
        .IoTHubDeviceClient_LL_SetOption hub env.OPTION_TRUSTED_CERT
          (.cert digiCertGlobalRootCA) .OK,
        .prov_dev_security_deinit], by simp [polledTrace], ?_, by simp, ?_⟩
    · simp [polledTrace, List.count_append, count_destroy_setupTrace, count_idleTicks_eq_zero]
    · simp [deinit_not_mem_setupTrace, mem_idleTicks_iff]
    · simp [Event.provHandle?]
  | provisioned host china _ h k u hub hc hf _ _ q =>
    refine ⟨?_, ?_⟩
    · simp [polledTrace, List.count_append, count_deinit_setupTrace, init_mem_setupTrace,
        hc.2.1.2.2.2.2, count_idleTicks_eq_zero]
    intro uri s h1 hmem
    have hh : h1 = h := by
      simp only [polledTrace, List.mem_append] at hmem
      rcases hmem with ((((hmem | hmem) | hmem) | hmem) | hmem)
      · exact create_mem_setupTrace hmem
      · simp at hmem
      · simp [mem_idleTicks_iff] at hmem
      · simp at hmem
      · simp at hmem
    subst hh
    refine ⟨?_, setupTrace env scope host china h1 ++ [.Prov_Device_LL_Register_Device h1 .OK]
        ++ idleTicks h1 k ++ [.Prov_Device_LL_DoWork h1 (some (.OK, u)), .msleep PROV_CHECK_LOOP],
      [.IoTHubDeviceClient_LL_CreateWithAzureSphereFromDeviceAuth (some u) (some hub),
        .free (some u), .IoTHubDeviceClient_LL_SetOption hub "SetDeviceId" (.deviceId 1) .OK,
        .prov_dev_security_deinit], by simp [polledTrace], ?_, by simp, ?_⟩
    · simp [polledTrace, List.count_append, count_destroy_setupTrace, count_idleTicks_eq_zero]
    · simp [deinit_not_mem_setupTrace, mem_idleTicks_iff]
    · simp [Event.provHandle?]

/-- Scenario 2 of the spec: one attest teardown and one destroy of the DPS client `1`. -/
theorem C5_acquire_release_balance_witness :
    ∃ run, IoTHubDeviceClient_LL_CreateWithAzureSphereDeviceAuthProvisioningV2
        (sampleEnv (firesAt 0 "myhub.azure-devices.cn") .OK) (some "0cn00XYZ")
        30000 (some none) = some run ∧
      run.trace.count Event.prov_dev_security_deinit = 1 ∧
      run.trace.count (Event.Prov_Device_LL_Destroy 1) = 1 :=
  ⟨_, rfl,
    (C5_acquire_release_balance (sampleEnv (firesAt 0 "myhub.azure-devices.cn") .OK) "0cn00XYZ"
      30000 (some none) _ rfl).1.trans (by decide),
    ((C5_acquire_release_balance (sampleEnv (firesAt 0 "myhub.azure-devices.cn") .OK) "0cn00XYZ"
      30000 (some none) _ rfl).2 CHINA_DPS_ENDPOINT "0cn00XYZ" 1 (by decide)).1⟩

/-- C6: the two trust-anchor decisions are made from separate signals.  In every
run that reaches `Prov_Device_LL_Register_Device`, `OPTION_TRUSTED_CERT` with the
compiled-in DigiCert root was set on the DPS client iff the scope starts with
`0cn` (and otherwise no certificate option was attempted on it).  In every run
that returns `OK`, the callback was invoked exactly once, with `OK` and a hub URI
`u`, and `OPTION_TRUSTED_CERT` with the DigiCert root was set on the hub client
iff `u` contains `.cn` (and otherwise no certificate option was attempted on
it), whatever the scope prefix. -/
theorem C6_trust_anchor_signals (env : Env) (scope : String) (timeout : Nat)
    (handle : Option (Option HubHandle)) (run : Run)
    (hrun : IoTHubDeviceClient_LL_CreateWithAzureSphereDeviceAuthProvisioningV2 env (some scope)
      timeout handle = some run) :
    ((∃ h c, Event.Prov_Device_LL_Register_Device h c ∈ run.trace) →
      ((∃ h, Event.Prov_Device_LL_SetOption h env.OPTION_TRUSTED_CERT
            (.cert digiCertGlobalRootCA) .OK ∈ run.trace) ↔
          CHINA_DPS_IDSCOPE_PREFIX.data <+: scope.data) ∧
      (¬ CHINA_DPS_IDSCOPE_PREFIX.data <+: scope.data →
        ∀ h name pem c, Event.Prov_Device_LL_SetOption h name (.cert pem) c ∉ run.trace)) ∧
    (run.ret.result = .OK →
      ∃ h u, Event.Prov_Device_LL_DoWork h (some (.OK, u)) ∈ run.trace ∧
        (∀ h1 cb, Event.Prov_Device_LL_DoWork h1 (some cb) ∈ run.trace → cb = (.OK, u)) ∧
        ((∃ hub, Event.IoTHubDeviceClient_LL_SetOption hub env.OPTION_TRUSTED_CERT
            (.cert digiCertGlobalRootCA) .OK ∈ run.trace) ↔
          CHINA_IOTHUB_SUFFIX.data <:+: u.data) ∧
        (¬ CHINA_IOTHUB_SUFFIX.data <:+: u.data →
          ∀ hub name pem c,
            Event.IoTHubDeviceClient_LL_SetOption hub name (.cert pem) c ∉ run.trace)) := by
  obtain ⟨run1, hrun1, hshape⟩ := runShape_exists env scope timeout handle
  rw [hrun] at hrun1
  cases hrun1
  cases hshape with
  | badPrefix _ a b => simp
  | nullHandle => simp
  | networkFailed => simp
  | networkNotReady => simp
  | deviceAuthFailed => simp
  | deviceAuthNotReady => simp
  | securityInitFailed => simp
  | createFailed => simp
  | deviceIdFailed => simp
  | trustedCertFailed => simp
  | registerFailed _ china _ _ c hc a b =>
    rcases hc.1 with ⟨p, _, rfl⟩ | ⟨p, _, _, rfl⟩ <;> simp [setupTrace, p]
  | timedOut _ china _ _ hc =>
    rcases hc.1 with ⟨p, _, rfl⟩ | ⟨p, _, _, rfl⟩ <;> simp [setupTrace, mem_idleTicks_iff, p]
  | registrationFailed _ china _ _ _ _ _ hc hf hr =>
    rcases hc.1 with ⟨p, _, rfl⟩ | ⟨p, _, _, rfl⟩ <;>
      simp [setupTrace, polledTrace, mem_idleTicks_iff, p]
  | hubCreateFailed _ china _ _ _ _ hc hf =>
    rcases hc.1 with ⟨p, _, rfl⟩ | ⟨p, _, _, rfl⟩ <;>
      simp [setupTrace, polledTrace, mem_idleTicks_iff, p]
  | hubDeviceIdFailed _ china _ _ _ _ _ _ hc hf _ _ hne =>
    rcases hc.1 with ⟨p, _, rfl⟩ | ⟨p, _, _, rfl⟩ <;>
      simp [setupTrace, polledTrace, mem_idleTicks_iff, p]
  | hubTrustedCertFailed _ china _ _ _ _ _ _ hc hf _ _ _ _ hne =>
    rcases hc.1 with ⟨p, _, rfl⟩ | ⟨p, _, _, rfl⟩ <;>
      simp [setupTrace, polledTrace, mem_idleTicks_iff, p]
  | provisionedChina _ china _ h k u _ hc hf _ _ q =>
    refine ⟨?_, fun _ => ⟨h, u, ?_, ?_, ?_, ?_⟩⟩
    · rcases hc.1 with ⟨p, _, rfl⟩ | ⟨p, _, _, rfl⟩ <;>
        simp [setupTrace, polledTrace, mem_idleTicks_iff, p]
    · simp [polledTrace]
    · rcases hc.1 with ⟨p, _, rfl⟩ | ⟨p, _, _, rfl⟩ <;>
        simp [setupTrace, polledTrace, mem_idleTicks_iff]
    · simp [setupTrace, polledTrace, mem_idleTicks_iff, q]
    · intro nq; exact absurd q nq
  | provisioned _ china _ h k u _ hc hf _ _ q =>
    refine ⟨?_, fun _ => ⟨h, u, ?_, ?_, ?_, ?_⟩⟩
    · rcases hc.1 with ⟨p, _, rfl⟩ | ⟨p, _, _, rfl⟩ <;>
        simp [setupTrace, polledTrace, mem_idleTicks_iff, p]
    · simp [polledTrace]
    · rcases hc.1 with ⟨p, _, rfl⟩ | ⟨p, _, _, rfl⟩ <;>
        simp [setupTrace, polledTrace, mem_idleTicks_iff]
    · rcases hc.1 with ⟨p, _, rfl⟩ | ⟨p, _, _, rfl⟩ <;>
        simp [setupTrace, polledTrace, mem_idleTicks_iff, q]
    · intro _
      rcases hc.1 with ⟨p, _, rfl⟩ | ⟨p, _, _, rfl⟩ <;>
        simp [setupTrace, polledTrace, mem_idleTicks_iff]

/-- The three scenarios of the claim: scope `0ne` with a `.net` hub sets the
trust anchor on neither client, scope `0cn` with a `.cn` hub on both, scope
`0ne` with a `.cn` hub on the hub client only. -/
theorem C6_trust_anchor_signals_witness :
    (∃ run, IoTHubDeviceClient_LL_CreateWithAzureSphereDeviceAuthProvisioningV2
        (sampleEnv (firesAt 2 "myhub.azure-devices.net") .OK) (some "0ne00ABCDEF")
        30000 (some none) = some run ∧
      run.ret.result = .OK ∧
      (∀ h name pem c, Event.Prov_Device_LL_SetOption h name (.cert pem) c ∉ run.trace) ∧
      (∀ hub name pem c,
        Event.IoTHubDeviceClient_LL_SetOption hub name (.cert pem) c ∉ run.trace)) ∧
    (∃ run, IoTHubDeviceClient_LL_CreateWithAzureSphereDeviceAuthProvisioningV2
        (sampleEnv (firesAt 0 "myhub.azure-devices.cn") .OK) (some "0cn00XYZ")
        30000 (some none) = some run ∧
      run.ret.result = .OK ∧
      (∃ h, Event.Prov_Device_LL_SetOption h "TrustedCerts"
        (.cert digiCertGlobalRootCA) .OK ∈ run.trace) ∧
      (∃ hub, Event.IoTHubDeviceClient_LL_SetOption hub "TrustedCerts"
        (.cert digiCertGlobalRootCA) .OK ∈ run.trace)) ∧
    (∃ run, IoTHubDeviceClient_LL_CreateWithAzureSphereDeviceAuthProvisioningV2
        (sampleEnv (firesAt 0 "myhub.azure-devices.cn") .OK) (some "0ne00ABCDEF")
        30000 (some none) = some run ∧
      run.ret.result = .OK ∧
      (∀ h name pem c, Event.Prov_Device_LL_SetOption h name (.cert pem) c ∉ run.trace) ∧
      (∃ hub, Event.IoTHubDeviceClient_LL_SetOption hub "TrustedCerts"
        (.cert digiCertGlobalRootCA) .OK ∈ run.trace)) := by
  refine ⟨⟨_, rfl, rfl, ?_⟩, ⟨_, rfl, rfl, ?_⟩, ⟨_, rfl, rfl, ?_⟩⟩
  · obtain ⟨hdps, hhub⟩ := C6_trust_anchor_signals
      (sampleEnv (firesAt 2 "myhub.azure-devices.net") .OK) "0ne00ABCDEF" 30000 (some none) _ rfl
    refine ⟨(hdps ⟨1, .OK, by decide⟩).2 (by decide), ?_⟩
    obtain ⟨h, u, _, huniq, _, hnone⟩ := hhub rfl
    have hu : (PROV_DEVICE_RESULT.OK, "myhub.azure-devices.net") = (PROV_DEVICE_RESULT.OK, u) :=
      huniq 1 _ (by decide)
    have hu1 : u = "myhub.azure-devices.net" := (Prod.mk.inj hu).2.symm
    subst hu1
    exact hnone (by decide)
  · obtain ⟨hdps, hhub⟩ := C6_trust_anchor_signals
      (sampleEnv (firesAt 0 "myhub.azure-devices.cn") .OK) "0cn00XYZ" 30000 (some none) _ rfl
    refine ⟨(hdps ⟨1, .OK, by decide⟩).1.mpr (by decide), ?_⟩
    obtain ⟨h, u, _, huniq, hiff, _⟩ := hhub rfl
    have hu : (PROV_DEVICE_RESULT.OK, "myhub.azure-devices.cn") = (PROV_DEVICE_RESULT.OK, u) :=
      huniq 1 _ (by decide)
    have hu1 : u = "myhub.azure-devices.cn" := (Prod.mk.inj hu).2.symm
    subst hu1
    exact hiff.mpr (by decide)
  · obtain ⟨hdps, hhub⟩ := C6_trust_anchor_signals
      (sampleEnv (firesAt 0 "myhub.azure-devices.cn") .OK) "0ne00ABCDEF" 30000 (some none) _ rfl
    refine ⟨(hdps ⟨1, .OK, by decide⟩).2 (by decide), ?_⟩
    obtain ⟨h, u, _, huniq, hiff, _⟩ := hhub rfl
    have hu : (PROV_DEVICE_RESULT.OK, "myhub.azure-devices.cn") = (PROV_DEVICE_RESULT.OK, u) :=
      huniq 1 _ (by decide)
    have hu1 : u = "myhub.azure-devices.cn" := (Prod.mk.inj hu).2.symm
    subst hu1
    exact hiff.mpr (by decide)

/-- C7: the result encoder, over every return path.  Whenever the result is
`PROV_DEVICE_ERROR`, `prov_device_error` has been assigned and is not `OK`; it
is `ERROR` when `Prov_Device_LL_Create` returned `NULL`, the failing call's own
code when a DPS `SetOption` or `Register_Device` returned a non-OK code, the
code reported to the callback when that is not `OK`, `TIMEOUT` when the
registration was accepted and the callback was never invoked, and
`DEV_AUTH_ERROR` when the hub-client creation returned `NULL`.  Whenever the
result is `IOTHUB_CLIENT_ERROR`, `iothub_client_error` is the non-OK code that
an `IoTHubDeviceClient_LL_SetOption` call of the run returned. -/
theorem C7_result_encoder (env : Env) (scope : String) (timeout : Nat)
    (handle : Option (Option HubHandle)) (run : Run)
    (hrun : IoTHubDeviceClient_LL_CreateWithAzureSphereDeviceAuthProvisioningV2 env (some scope)
      timeout handle = some run) :
    (run.ret.result = .PROV_DEVICE_ERROR →
      ∃ c, run.ret.prov_device_error = some c ∧ c ≠ .OK) ∧
    (∀ uri s, Event.Prov_Device_LL_Create uri s none ∈ run.trace →
      run.ret.result = .PROV_DEVICE_ERROR ∧ run.ret.prov_device_error = some .ERROR) ∧
    (∀ h name v c, Event.Prov_Device_LL_SetOption h name v c ∈ run.trace → c ≠ .OK →
      run.ret.result = .PROV_DEVICE_ERROR ∧ run.ret.prov_device_error = some c) ∧
    (∀ h c, Event.Prov_Device_LL_Register_Device h c ∈ run.trace → c ≠ .OK →
      run.ret.result = .PROV_DEVICE_ERROR ∧ run.ret.prov_device_error = some c) ∧
    (∀ h c u, Event.Prov_Device_LL_DoWork h (some (c, u)) ∈ run.trace → c ≠ .OK →
      run.ret.result = .PROV_DEVICE_ERROR ∧ run.ret.prov_device_error = some c) ∧
    ((∃ h, Event.Prov_Device_LL_Register_Device h .OK ∈ run.trace) →
      (∀ h cb, Event.Prov_Device_LL_DoWork h (some cb) ∉ run.trace) →
      run.ret.result = .PROV_DEVICE_ERROR ∧ run.ret.prov_device_error = some .TIMEOUT) ∧
    (∀ u, Event.IoTHubDeviceClient_LL_CreateWithAzureSphereFromDeviceAuth u none ∈ run.trace →
      run.ret.result = .PROV_DEVICE_ERROR ∧
      run.ret.prov_device_error = some .DEV_AUTH_ERROR) ∧
    (run.ret.result = .IOTHUB_CLIENT_ERROR →
      ∃ c, run.ret.iothub_client_error = some c ∧ c ≠ .OK ∧
        ∃ hub name v, Event.IoTHubDeviceClient_LL_SetOption hub name v c ∈ run.trace) := by
  obtain ⟨run1, hrun1, hshape⟩ := runShape_exists env scope timeout handle
  rw [hrun] at hrun1
  cases hrun1
  cases hshape with
  | badPrefix _ a b => simp
  | nullHandle => simp
  | networkFailed => simp
  | networkNotReady => simp
  | deviceAuthFailed => simp
  | deviceAuthNotReady => simp
  | securityInitFailed => simp
  | createFailed => simp
  | deviceIdFailed _ _ _ _ c _ _ _ a b =>
    simp [b]
    aesop
  | trustedCertFailed _ _ _ c _ _ _ _ a b =>
    simp [b]
    aesop
  | registerFailed _ china _ _ c hc a b =>
    cases china <;> simp [setupTrace, b] <;> aesop
  | timedOut _ china _ _ hc =>
    cases china <;> simp [setupTrace, mem_idleTicks_iff] <;> aesop
  | registrationFailed _ china _ _ _ _ _ hc hf hr =>
    cases china <;> simp [setupTrace, polledTrace, mem_idleTicks_iff, hr] <;> aesop
  | hubCreateFailed _ china _ _ _ _ hc hf =>
    cases china <;> simp [setupTrace, polledTrace, mem_idleTicks_iff] <;> aesop
  | hubDeviceIdFailed _ china _ _ _ _ _ _ hc hf _ _ hne =>
    cases china <;> simp [setupTrace, polledTrace, mem_idleTicks_iff, hne] <;> aesop
  | hubTrustedCertFailed _ china _ _ _ _ _ _ hc hf _ _ _ _ hne =>
    cases china <;> simp [setupTrace, polledTrace, mem_idleTicks_iff, hne] <;> aesop
  | provisionedChina _ china _ _ _ _ _ hc hf =>
    cases china <;> simp [setupTrace, polledTrace, mem_idleTicks_iff] <;> aesop
  | provisioned _ china _ _ _ _ _ hc hf =>
    cases china <;> simp [setupTrace, polledTrace, mem_idleTicks_iff] <;> aesop

/-- The timed-out run carries a non-OK `prov_device_error`. -/
theorem C7_result_encoder_witness :
    ∃ run, IoTHubDeviceClient_LL_CreateWithAzureSphereDeviceAuthProvisioningV2
        (sampleEnv neverFires .OK) (some "0ne00ABCDEF") 500 (some none) = some run ∧
      ∃ c, run.ret.prov_device_error = some c ∧ c ≠ .OK :=
  ⟨_, rfl, (C7_result_encoder (sampleEnv neverFires .OK) "0ne00ABCDEF" 500 (some none) _ rfl).1
    rfl⟩

/-- C8 (the code at the failing input): timeout 50, so the budget is 0.  When
the callback reports `OK` on the third tick the call makes three do-work ticks
and returns `OK`; when the callback is never invoked the call makes `2 ^ 32`
do-work ticks before it returns `PROV_DEVICE_ERROR` / `TIMEOUT`.  The loop is
not one-shot. -/
theorem C8_budget_zero_wraps :
    (∃ run, IoTHubDeviceClient_LL_CreateWithAzureSphereDeviceAuthProvisioningV2
        (sampleEnv (firesAt 2 "myhub.azure-devices.net") .OK) (some "0ne00ABCDEF")
        50 (some none) = some run ∧
      run.ret.result = .OK ∧ run.trace.countP Event.isDoWork = 3) ∧
    (∃ run, IoTHubDeviceClient_LL_CreateWithAzureSphereDeviceAuthProvisioningV2
        (sampleEnv neverFires .OK) (some "0ne00ABCDEF") 50 (some none) = some run ∧
      run.ret.result = .PROV_DEVICE_ERROR ∧ run.ret.prov_device_error = some .TIMEOUT ∧
      run.trace.countP Event.isDoWork = 4294967296) := by
  refine ⟨⟨_, rfl, rfl, by decide⟩, ?_⟩
  refine ⟨_, run_of_idle (sampleEnv neverFires .OK) "0ne00ABCDEF" GLOBAL_DPS_ENDPOINT false 1
    50 none (sampleEnv_configured neverFires .OK) rfl (fun _ _ => rfl), rfl, rfl, ?_⟩
  have hmax : maxTicks (50 % UINT_RANGE / PROV_CHECK_LOOP) = 4294967296 := by decide
  simp [List.countP_append, countP_isDoWork_idleTicks, countP_isDoWork_setupTrace, hmax,
    Event.isDoWork]

/-- C9 (the code at the failing input): scope `1ab00`, `*handle = 42` before the
call.  The call fails with `INVALID_PARAM` and `*handle` is still `42`, not
`NULL`. -/
theorem C9_handle_not_cleared_on_failure :
    ∃ run, IoTHubDeviceClient_LL_CreateWithAzureSphereDeviceAuthProvisioningV2
        (sampleEnv neverFires .OK) (some "1ab00") 30000 (some (some 42)) = some run ∧
      run.ret.result = .INVALID_PARAM ∧ run.handle = some (some 42) :=
  ⟨_, rfl, rfl, rfl⟩

/-- The callback on addresses refines the callback on strings: whenever it has a
defined result, erasing the pointers of that result gives what the callback on
strings computes from the erased context and the string the transport passed. -/
theorem callback_erase (malloc : Nat → Option Mem.Addr) (r : PROV_DEVICE_RESULT)
    (q : Option Mem.Addr) (pctx pctx1 : Mem.DpsCbContext) (mem mem1 : Mem.Memory) (u : String)
    (hu : r = .OK → q.bind mem = some u)
    (h : Mem.register_device_callback malloc r q pctx mem = some (pctx1, mem1)) :
    register_device_callback r u (Mem.erase mem pctx) = Mem.erase mem1 pctx1 := by
  unfold Mem.register_device_callback at h
  by_cases hr : r = .OK
  · subst hr
    rw [hu rfl] at h
    simp only [if_true] at h
    cases hm : malloc (strlen u + 1) with
    | none => rw [hm] at h; cases h
    | some p =>
      rw [hm] at h
      simp only [Option.bind, Mem.strcpy, if_true] at h
      unfold register_device_callback
      simp only [if_true]
      by_cases hs : strstr u.data CHINA_IOTHUB_SUFFIX.data = none
      · simp only [hs, ne_eq, not_true_eq_false, if_false] at h ⊢
        cases h
        simp [Mem.erase, Mem.strcpy]
      · simp only [hs, ne_eq, not_false_eq_true, if_true] at h ⊢
        cases h
        simp [Mem.erase, Mem.strcpy]
  · simp only [hr, if_false] at h
    cases h
    simp [register_device_callback, hr, Mem.erase]

/-- The source does not test the result of `malloc`: when it is `NULL`, line 94
copies into a null pointer and the callback has no defined result. -/
theorem callback_malloc_null (malloc : Nat → Option Mem.Addr) (q : Mem.Addr)
    (pctx : Mem.DpsCbContext) (mem : Mem.Memory) (u : String) (hq : mem q = some u)
    (hm : malloc (strlen u + 1) = none) :
    Mem.register_device_callback malloc .OK (some q) pctx mem = none := by
  simp [Mem.register_device_callback, hq, hm]

end AzureSphereProv
